import Mathlib

/-!
# h5cpp: group-creation property list, node functions and object handles

A shallow embedding of

* `src/group_creation_property_list.cpp` (all getters and setters),
* `src/link_creation_order.cpp` (the creation-order flags),
* `src/node/functions.cpp` (`copy`, `remove`, `move`),
* the object handle and the class compatibility check described in sections
  3, 4.1 and 4.2 of the specification (their implementation is not among the
  source files; only their tests are).

The HDF5 engine is external to the repository.  Its primitives are taken as
parameters: functions over an engine state that return a status (negative
means failure) together with the engine state after the call.  C++ exceptions
become `Except` results; every exception thrown by the embedded sources is a
`std::runtime_error` carrying a message.
-/

namespace hdf5

/-- HDF5 identifier type (`hid_t`), a signed integer. -/
abbrev hid_t := Int

/-- HDF5 status type (`herr_t`); a negative value reports failure. -/
abbrev herr_t := Int

/-- The exception `std::runtime_error`, identified by its message. -/
structure runtime_error where
  what : String
deriving DecidableEq, Repr

/-! ## `src/group_creation_property_list.cpp` -/

namespace property_list

/-- The two engine primitives behind the link-phase-change accessors.
`H5Pget_link_phase_change` writes two `unsigned` values through its pointer
arguments; here it returns them next to the status.  C++ `unsigned` values are
natural numbers: no arithmetic is done on them. -/
structure PhaseChangeEngine (σ : Type) where
  H5Pset_link_phase_change : σ → hid_t → Nat → Nat → herr_t × σ
  H5Pget_link_phase_change : σ → hid_t → herr_t × Nat × Nat

/-- Contract of the engine assumed by the read-back properties: whatever a
successful `H5Pset_link_phase_change` was given is what a later
`H5Pget_link_phase_change` on the same list reports, successfully. -/
def PhaseChangeEngine.StoresPair {σ : Type} (E : PhaseChangeEngine σ) : Prop :=
  ∀ (s : σ) (id : hid_t) (a b : Nat),
    0 ≤ (E.H5Pset_link_phase_change s id a b).1 →
      0 ≤ (E.H5Pget_link_phase_change (E.H5Pset_link_phase_change s id a b).2 id).1 ∧
      (E.H5Pget_link_phase_change (E.H5Pset_link_phase_change s id a b).2 id).2 = (a, b)

/-- A group-creation property list, as far as this translation unit uses it:
the identifier that `static_cast<hid_t>(*this)` yields. -/
structure GroupCreation where
  hid : hid_t
deriving DecidableEq, Repr

variable {σ : Type}

/-- Private member `GroupCreation::set_link_phase_change_` (lines 58-66):
throws `error_message` when the engine status is negative. -/
def GroupCreation.set_link_phase_change_ (E : PhaseChangeEngine σ) (self : GroupCreation)
    (max_links min_links : Nat) (error_message : String) (s : σ) :
    Except runtime_error Unit × σ :=
  let r := E.H5Pset_link_phase_change s self.hid max_links min_links
  if r.1 < 0 then (.error ⟨error_message⟩, r.2) else (.ok (), r.2)

/-- Private member `GroupCreation::get_link_phase_change_` (lines 69-77): the
two reference parameters are returned as a pair `(max_links, min_links)`. -/
def GroupCreation.get_link_phase_change_ (E : PhaseChangeEngine σ) (self : GroupCreation)
    (error_message : String) (s : σ) : Except runtime_error (Nat × Nat) :=
  let r := E.H5Pget_link_phase_change s self.hid
  if r.1 < 0 then .error ⟨error_message⟩ else .ok (r.2.1, r.2.2)

/-- Getter `GroupCreation::maximum_links_for_compact_group() const` (lines 182-190). -/
def GroupCreation.maximum_links_for_compact_group (E : PhaseChangeEngine σ)
    (self : GroupCreation) (s : σ) : Except runtime_error Nat :=
  match self.get_link_phase_change_ E
      "Failure retrieving the maximum number of links for compact groups from group creation property list!"
      s with
  | .error e => .error e
  | .ok (max_links, _) => .ok max_links

/-- Getter `GroupCreation::minimum_links_for_dense_group() const` (lines 201-210). -/
def GroupCreation.minimum_links_for_dense_group (E : PhaseChangeEngine σ)
    (self : GroupCreation) (s : σ) : Except runtime_error Nat :=
  match self.get_link_phase_change_ E
      "Failure retrieving the minimum number of links for dense groups from group creation property list!"
      s with
  | .error e => .error e
  | .ok (_, min_links) => .ok min_links

/-- Setter `GroupCreation::maximum_links_for_compact_group(unsigned)` (lines 174-179).
The argument `minimum_links_for_dense_group()` is evaluated first; an exception
it throws propagates before the engine is asked to store anything. -/
def GroupCreation.set_maximum_links_for_compact_group (E : PhaseChangeEngine σ)
    (self : GroupCreation) (nlinks : Nat) (s : σ) : Except runtime_error Unit × σ :=
  match self.minimum_links_for_dense_group E s with
  | .error e => (.error e, s)
  | .ok min_links =>
    self.set_link_phase_change_ E nlinks min_links
      "Failure to set the number of maximum links for compact groups in a group creation property list!"
      s

/-- Setter `GroupCreation::minimum_links_for_dense_group(unsigned)` (lines 193-198). -/
def GroupCreation.set_minimum_links_for_dense_group (E : PhaseChangeEngine σ)
    (self : GroupCreation) (nlinks : Nat) (s : σ) : Except runtime_error Unit × σ :=
  match self.maximum_links_for_compact_group E s with
  | .error e => (.error e, s)
  | .ok max_links =>
    self.set_link_phase_change_ E max_links nlinks
      "Failure to set the minimum number of links for dense groups in a group creation property list!"
      s

/-- A small engine used to instantiate the theorems: one stored pair per
engine state, shared by every non-negative identifier; negative identifiers
are rejected. -/
def pairEngine : PhaseChangeEngine (Nat × Nat) where
  H5Pset_link_phase_change := fun s id a b => if id < 0 then (-1, s) else (0, (a, b))
  H5Pget_link_phase_change := fun s id => if id < 0 then (-1, 0, 0) else (0, s.1, s.2)

end property_list

/-! ## `src/node/functions.cpp` -/

namespace node

/-- A `Path`, reduced to what `node/functions.cpp` reads from one: `str` is the
result of `static_cast<std::string>(path)` (which is also what inserting the
path into a stream writes), `back` the result of `path.back()`. -/
structure Path where
  str : String
  back : String
deriving DecidableEq, Repr

/-- A `Group`, reduced to what `node/functions.cpp` reads from one: the
identifier `static_cast<hid_t>(group)` and the text that inserting
`group.link()` into a stream writes.  `group.links.exists(name)` is a query of
the engine, see `LinkEngine.links_exists`. -/
structure Group where
  hid : hid_t
  link_text : String
deriving DecidableEq, Repr

/-- A `Link`: its `parent()` group, its `path()`, and the text that inserting
the link into a stream writes.  The accessors are declared outside the source
files; they are taken to return normally and to leave the hierarchy alone. -/
structure Link where
  parent : Group
  path : Path
  text : String
deriving DecidableEq, Repr

/-- A `Node`, reduced to its `link()`. -/
structure Node where
  link : Link
deriving DecidableEq, Repr

/-- One call of a mutating engine primitive, with the arguments in the order
of the C signature. -/
inductive EngineCall where
  | H5Ocopy (src_loc_id : hid_t) (src_name : String) (dst_loc_id : hid_t)
      (dst_name : String) (ocpypl_id lcpl_id : hid_t)
  | H5Ldelete (loc_id : hid_t) (name : String) (lapl_id : hid_t)
  | H5Lmove (src_loc_id : hid_t) (src_name : String) (dst_loc_id : hid_t)
      (dst_name : String) (lcpl_id lapl_id : hid_t)
deriving DecidableEq, Repr

/-- The engine as seen by `node/functions.cpp`, over a hierarchy state `σ`:
the existence query behind `group.links.exists(name)` and the three mutating
primitives, each returning its status and the hierarchy after the call. -/
structure LinkEngine (σ : Type) where
  links_exists : σ → hid_t → String → Bool
  H5Ocopy : σ → hid_t → String → hid_t → String → hid_t → hid_t → herr_t × σ
  H5Ldelete : σ → hid_t → String → hid_t → herr_t × σ
  H5Lmove : σ → hid_t → String → hid_t → String → hid_t → hid_t → herr_t × σ

/-- The state the node functions run in: the hierarchy held by the engine and
the record of every mutating primitive called so far, oldest first. -/
structure World (σ : Type) where
  hier : σ
  calls : List EngineCall

variable {σ : Type}

/-- Call `H5Ocopy` and record the call. -/
def World.H5Ocopy (E : LinkEngine σ) (w : World σ) (src_loc_id : hid_t) (src_name : String)
    (dst_loc_id : hid_t) (dst_name : String) (ocpypl_id lcpl_id : hid_t) : herr_t × World σ :=
  let r := E.H5Ocopy w.hier src_loc_id src_name dst_loc_id dst_name ocpypl_id lcpl_id
  (r.1, ⟨r.2, w.calls ++ [.H5Ocopy src_loc_id src_name dst_loc_id dst_name ocpypl_id lcpl_id]⟩)

/-- Call `H5Ldelete` and record the call. -/
def World.H5Ldelete (E : LinkEngine σ) (w : World σ) (loc_id : hid_t) (name : String)
    (lapl_id : hid_t) : herr_t × World σ :=
  let r := E.H5Ldelete w.hier loc_id name lapl_id
  (r.1, ⟨r.2, w.calls ++ [.H5Ldelete loc_id name lapl_id]⟩)

/-- Call `H5Lmove` and record the call. -/
def World.H5Lmove (E : LinkEngine σ) (w : World σ) (src_loc_id : hid_t) (src_name : String)
    (dst_loc_id : hid_t) (dst_name : String) (lcpl_id lapl_id : hid_t) : herr_t × World σ :=
  let r := E.H5Lmove w.hier src_loc_id src_name dst_loc_id dst_name lcpl_id lapl_id
  (r.1, ⟨r.2, w.calls ++ [.H5Lmove src_loc_id src_name dst_loc_id dst_name lcpl_id lapl_id]⟩)

/-- Function `copy(source, base, rel_path, ocpl, lcpl)` (lines 31-57).  The
property lists enter only through `static_cast<hid_t>`, so they are given by
their identifiers. -/
def copy (E : LinkEngine σ) (source : Node) (base : Group) (rel_path : Path)
    (ocpl lcpl : hid_t) (w : World σ) : Except runtime_error Unit × World σ :=
  if E.links_exists w.hier base.hid rel_path.str then
    (.error ⟨"node::copy failed. " ++ base.link_text ++ " / " ++ rel_path.str
        ++ " already exists!"⟩, w)
  else
    let r := w.H5Ocopy E source.link.parent.hid source.link.path.back
      base.hid rel_path.str ocpl lcpl
    if 0 > r.1 then
      (.error ⟨"node::copy failed. Could not copy " ++ source.link.text ++ " to "
          ++ base.link_text ++ " / " ++ rel_path.str⟩, r.2)
    else (.ok (), r.2)

/-- Function `copy(source, destination, ocpl, lcpl)` (lines 59-86): the copy
keeps the last element of the source's path as its name. -/
def copy_same_name (E : LinkEngine σ) (source : Node) (destination : Group)
    (ocpl lcpl : hid_t) (w : World σ) : Except runtime_error Unit × World σ :=
  let name := source.link.path.back
  if E.links_exists w.hier destination.hid name then
    (.error ⟨"node::copy failed. " ++ destination.link_text ++ " / " ++ name
        ++ " already exists!"⟩, w)
  else
    let r := w.H5Ocopy E source.link.parent.hid name destination.hid name ocpl lcpl
    if 0 > r.1 then
      (.error ⟨"node::copy failed. Could not copy " ++ source.link.text ++ " to "
          ++ destination.link_text ++ " / " ++ name⟩, r.2)
    else (.ok (), r.2)

/-- Function `remove(base, rel_path, lapl)` (lines 94-113). -/
def remove (E : LinkEngine σ) (base : Group) (rel_path : Path) (lapl : hid_t)
    (w : World σ) : Except runtime_error Unit × World σ :=
  if !E.links_exists w.hier base.hid rel_path.str then
    (.error ⟨"node::remove failed. " ++ base.link_text ++ " / " ++ rel_path.str
        ++ " does not exist."⟩, w)
  else
    let r := w.H5Ldelete E base.hid rel_path.str lapl
    if 0 > r.1 then
      (.error ⟨"node::remove failed. Could not remove" ++ base.link_text ++ " / "
          ++ rel_path.str⟩, r.2)
    else (.ok (), r.2)

/-- Function `remove(object, lapl)` (lines 88-92).  `mkPath` stands for the
constructor `Path(std::string)`, which is declared outside the source files. -/
def remove_node (E : LinkEngine σ) (mkPath : String → Path) (object : Node) (lapl : hid_t)
    (w : World σ) : Except runtime_error Unit × World σ :=
  remove E object.link.parent (mkPath object.link.path.back) lapl w

/-- Function `move(source, destination_base, destination_path, lcpl, lapl)`
(lines 126-154). -/
def move (E : LinkEngine σ) (source : Node) (destination_base : Group)
    (destination_path : Path) (lcpl lapl : hid_t) (w : World σ) :
    Except runtime_error Unit × World σ :=
  let name := destination_path.str
  if E.links_exists w.hier destination_base.hid name then
    (.error ⟨"node::move failed. " ++ destination_base.link_text ++ " / " ++ name
        ++ " already exists!"⟩, w)
  else
    let r := w.H5Lmove E source.link.parent.hid source.link.path.back
      destination_base.hid name lcpl lapl
    if 0 > r.1 then
      (.error ⟨"node::move failed. Could not move " ++ source.link.text ++ " to "
          ++ destination_base.link_text ++ " / " ++ destination_path.str⟩, r.2)
    else (.ok (), r.2)

/-- Function `move(source, destination_base, lcpl, lapl)` (lines 115-124). -/
def move_same_name (E : LinkEngine σ) (mkPath : String → Path) (source : Node)
    (destination_base : Group) (lcpl lapl : hid_t) (w : World σ) :
    Except runtime_error Unit × World σ :=
  move E source destination_base (mkPath source.link.path.back) lcpl lapl w

/-- A small engine used to instantiate the theorems.  The hierarchy is the
list of links, each a pair of a group identifier and a name; a negative
property-list identifier is rejected. -/
def listEngine : LinkEngine (List (hid_t × String)) where
  links_exists := fun s g n => s.contains (g, n)
  H5Ocopy := fun s sl sn dl dn ocpl lcpl =>
    if ocpl < 0 ∨ lcpl < 0 ∨ !s.contains (sl, sn) then (-1, s) else (0, (dl, dn) :: s)
  H5Ldelete := fun s l n lapl =>
    if lapl < 0 then (-1, s) else (0, s.filter (fun x => x != (l, n)))
  H5Lmove := fun s sl sn dl dn lcpl lapl =>
    if lcpl < 0 ∨ lapl < 0 ∨ !s.contains (sl, sn) then (-1, s)
    else (0, (dl, dn) :: s.filter (fun x => x != (sl, sn)))

/-- A `Path(std::string)` for single link names, used with `listEngine`. -/
def namePath (name : String) : Path := ⟨name, name⟩

end node

/-! ## The object handle (specification, sections 3, 4.1, 6 and 7) -/

namespace handle

/-- Modelled from the spec: the closed set of handle kinds of section 3
("Handle Type"); the declaration of `ObjectHandle::Type` is not among the
source files. -/
inductive HandleType where
  | File | Group | Dataset | Datatype | Dataspace | Attribute | PropertyList
  | PropertyListClass | ErrorClass | ErrorMessage | ErrorStack | BadObject
deriving DecidableEq, Repr

/-- Modelled from the spec: the error kinds of section 7; the handle's own
exceptions are not among the source files. -/
inductive ErrorKind where
  | InvalidHandle | IntrospectionFailure | CloseFailure | ClassMismatch
  | AlreadyExists | NotFound | CopyFailure | MoveFailure | RemoveFailure
deriving DecidableEq, Repr

/-- Modelled from the spec: the engine primitives of section 6 that the handle
calls (the handle's implementation is not among the source files).  `is_valid`
is the engine's own notion of a valid, open identifier; `get_type` is the
type-introspection primitive, `none` when the call errors; `get_ref` is the
reference-count query, negative when it fails; `inc_ref` and `release` are the
increment and the close/release primitives, each returning its status and the
engine state after the call. -/
structure IdEngine (σ : Type) where
  is_valid : σ → hid_t → Bool
  get_type : σ → hid_t → Option HandleType
  get_ref : σ → hid_t → Int
  inc_ref : σ → hid_t → herr_t × σ
  release : σ → hid_t → herr_t × σ

/-- One call of a mutating engine primitive on an identifier. -/
inductive IdCall where
  | inc_ref (id : hid_t)
  | release (id : hid_t)
deriving DecidableEq, Repr

/-- The state the handle operations run in: the engine state and the record
of every mutating primitive called so far, oldest first. -/
structure World (σ : Type) where
  eng : σ
  calls : List IdCall

variable {σ : Type}

/-- Call the engine's increment primitive and record the call. -/
def World.inc_ref (E : IdEngine σ) (w : World σ) (id : hid_t) : herr_t × World σ :=
  let r := E.inc_ref w.eng id
  (r.1, ⟨r.2, w.calls ++ [.inc_ref id]⟩)

/-- Call the engine's release primitive and record the call. -/
def World.release (E : IdEngine σ) (w : World σ) (id : hid_t) : herr_t × World σ :=
  let r := E.release w.eng id
  (r.1, ⟨r.2, w.calls ++ [.release id]⟩)

/-- Modelled from the spec: the sentinel identifier that denotes "no resource"
(section 3; section 8 names the value -1). -/
def sentinel : hid_t := -1

/-- Modelled from the spec: "a valid, open resource identifier" in the sense of
section 4.1, `construct`: a negative identifier never is one, any other is one
when the engine says so. -/
def valid_open (E : IdEngine σ) (s : σ) (raw_id : hid_t) : Bool :=
  decide (0 ≤ raw_id) && E.is_valid s raw_id

/-- Modelled from the spec: the Resource Handle of section 3 (the class
`ObjectHandle`, whose implementation is not among the source files).  The
handle wraps `native_id`; its kind is derived from `native_id` on demand
(`Handle.get_type`) and therefore not stored. -/
structure Handle where
  native_id : hid_t
deriving DecidableEq, Repr

/-- Modelled from the spec: `default construct()` of section 4.1, the invalid
handle, made without the engine. -/
def Handle.default_construct : Handle := ⟨sentinel⟩

/-- Modelled from the spec: `is_valid()` of section 4.1, true iff `native_id`
is not the sentinel. -/
def Handle.is_valid (h : Handle) : Bool := h.native_id != sentinel

/-- Modelled from the spec: `construct(raw_id)` of section 4.1.  Fails with
`InvalidHandle` unless `raw_id` is a valid, open identifier; on success adopts
the identifier without touching its reference count. -/
def Handle.construct (E : IdEngine σ) (raw_id : hid_t) (w : World σ) : Except ErrorKind Handle :=
  if valid_open E w.eng raw_id then .ok ⟨raw_id⟩ else .error .InvalidHandle

/-- Modelled from the spec: `get_type()` of section 4.1. -/
def Handle.get_type (E : IdEngine σ) (h : Handle) (w : World σ) : Except ErrorKind HandleType :=
  if h.is_valid then
    match E.get_type w.eng h.native_id with
    | some kind => .ok kind
    | none => .error .IntrospectionFailure
  else .ok .BadObject

/-- Modelled from the spec: `get_reference_count()` of section 4.1.  The spec
names no error kind for a failing count query on a valid handle; the model
reports it as `InvalidHandle` ("no live resource"). -/
def Handle.get_reference_count (E : IdEngine σ) (h : Handle) (w : World σ) : Except ErrorKind Nat :=
  if h.is_valid then
    let c := E.get_ref w.eng h.native_id
    if c < 0 then .error .InvalidHandle else .ok c.toNat
  else .error .InvalidHandle

/-- Modelled from the spec: `close()` of section 4.1.  Returns the outcome, the
handle after the call and the world after the call.  A valid handle is invalid
afterwards whether or not the engine's release succeeded. -/
def Handle.close (E : IdEngine σ) (h : Handle) (w : World σ) :
    Except ErrorKind Unit × Handle × World σ :=
  if h.is_valid then
    let r := w.release E h.native_id
    if r.1 < 0 then (.error .CloseFailure, Handle.default_construct, r.2)
    else (.ok (), Handle.default_construct, r.2)
  else (.error .InvalidHandle, h, w)

/-- Modelled from the spec: destruction (section 4.1), a best-effort `close()`
whose failure is swallowed; only the world remains. -/
def Handle.destroy (E : IdEngine σ) (h : Handle) (w : World σ) : World σ :=
  (h.close E w).2.2

/-- Modelled from the spec: copy construction (section 4.1).  A valid source
has its reference count incremented and the new handle shares its
`native_id`; an invalid source gives an invalid handle.  The spec names no
error kind for a failing increment; the model reports it as `InvalidHandle`. -/
def Handle.copy_construct (E : IdEngine σ) (source : Handle) (w : World σ) :
    Except ErrorKind Handle × World σ :=
  if source.is_valid then
    let r := w.inc_ref E source.native_id
    if r.1 < 0 then (.error .InvalidHandle, r.2) else (.ok ⟨source.native_id⟩, r.2)
  else (.ok Handle.default_construct, w)

/-- Modelled from the spec: the step "first releases whatever the target
previously owned" of copy and move assignment (section 4.1): as `close()`, but
an invalid target owns nothing and releasing nothing is no failure.  Returns
the separately reported outcome of the release and the world after it. -/
def Handle.release_owned (E : IdEngine σ) (target : Handle) (w : World σ) :
    Except ErrorKind Unit × World σ :=
  if target.is_valid then ((target.close E w).1, (target.close E w).2.2) else (.ok (), w)

/-- Modelled from the spec: copy assignment `target = source` (section 4.1).
Returns the outcome of releasing the target's old resource, the outcome of the
copy with the target's new value, and the world after the call. -/
def Handle.copy_assign (E : IdEngine σ) (target source : Handle) (w : World σ) :
    Except ErrorKind Unit × Except ErrorKind Handle × World σ :=
  let old := target.release_owned E w
  let new := source.copy_construct E old.2
  (old.1, new.1, new.2)

/-- Modelled from the spec: move construction (section 4.1).  Returns the new
handle and the moved-from source; the engine takes no part. -/
def Handle.move_construct (source : Handle) : Handle × Handle :=
  (⟨source.native_id⟩, Handle.default_construct)

/-- Modelled from the spec: move assignment `target = std::move(source)`
(section 4.1).  Returns the outcome of releasing the target's old resource,
the target's new value, the moved-from source, and the world after the call. -/
def Handle.move_assign (E : IdEngine σ) (target source : Handle) (w : World σ) :
    Except ErrorKind Unit × Handle × Handle × World σ :=
  let old := target.release_owned E w
  (old.1, (Handle.move_construct source).1, (Handle.move_construct source).2, old.2)

/-- Modelled from the spec: the equality operator (section 3, "Equality"):
two handles are equal iff their `native_id` values are equal. -/
def Handle.equal (lhs rhs : Handle) : Bool := lhs.native_id == rhs.native_id

/-- Modelled from the spec: the engine's resource table (sections 3 and 5): an
external reference count per identifier, zero once the resource is freed, and
the kind the engine reports for it. -/
structure Table where
  refs : hid_t → Nat
  kinds : hid_t → Option HandleType

/-- An identifier is live in the table when it is not negative and its
reference count is positive. -/
def Table.live (t : Table) (id : hid_t) : Bool := decide (0 ≤ id) && decide (0 < t.refs id)

/-- The table with the reference count of one identifier rewritten. -/
def Table.set_refs (t : Table) (id : hid_t) (n : Nat) : Table :=
  { t with refs := Function.update t.refs id n }

/-- Modelled from the spec: the reference-counting engine of sections 3 and 5.
Incrementing adds one unit to a live identifier, releasing removes one (the
resource is freed when the count reaches zero); every primitive fails on an
identifier that is not live ("already released at the engine layer") and then
leaves the table as it was.  On a live identifier every primitive succeeds. -/
def tableEngine : IdEngine Table where
  is_valid := fun t id => t.live id
  get_type := fun t id => if t.live id then t.kinds id else none
  get_ref := fun t id => if t.live id then (t.refs id : Int) else -1
  inc_ref := fun t id =>
    if t.live id then (0, t.set_refs id (t.refs id + 1)) else (-1, t)
  release := fun t id =>
    if t.live id then (0, t.set_refs id (t.refs id - 1)) else (-1, t)

end handle

/-! ## `src/link_creation_order.cpp` -/

namespace property_list

/-- The HDF5 flag `H5P_CRT_ORDER_TRACKED` (bit 0); the macro belongs to the
HDF5 headers, not to the repository. -/
def H5P_CRT_ORDER_TRACKED : Nat := 0x0001

/-- The HDF5 flag `H5P_CRT_ORDER_INDEXED` (bit 1); the macro belongs to the
HDF5 headers, not to the repository. -/
def H5P_CRT_ORDER_INDEXED : Nat := 0x0002

/-- The class `LinkCreationOrder`: its three `unsigned` members.  The class
declaration is outside the source files; whatever width it gives the members,
this translation unit only ever stores 0 or 1 in `tracked_` and `indexed_`
and 0 in `reserved_`, so the stored values are kept as computed. -/
structure LinkCreationOrder where
  tracked_ : Nat
  indexed_ : Nat
  reserved_ : Nat
deriving DecidableEq, Repr

/-- Constructor `LinkCreationOrder::LinkCreationOrder()` (lines 31-37). -/
def LinkCreationOrder.default_construct : LinkCreationOrder :=
  { tracked_ := 0, indexed_ := 0, reserved_ := 0 }

/-- Constructor `LinkCreationOrder::LinkCreationOrder(unsigned value)`
(lines 39-46). -/
def LinkCreationOrder.from_unsigned (value : Nat) : LinkCreationOrder :=
  { tracked_ := value &&& H5P_CRT_ORDER_TRACKED,
    indexed_ := (value &&& H5P_CRT_ORDER_INDEXED) >>> 1,
    reserved_ := 0 }

/-- Member `LinkCreationOrder::enable_tracked` (lines 48-52). -/
def LinkCreationOrder.enable_tracked (self : LinkCreationOrder) : LinkCreationOrder :=
  { self with tracked_ := 1 }

/-- Member `LinkCreationOrder::disable_tracked` (lines 54-58). -/
def LinkCreationOrder.disable_tracked (self : LinkCreationOrder) : LinkCreationOrder :=
  { self with tracked_ := 0 }

/-- Member `LinkCreationOrder::enable_indexed` (lines 60-65). -/
def LinkCreationOrder.enable_indexed (self : LinkCreationOrder) : LinkCreationOrder :=
  { self with tracked_ := 1, indexed_ := 1 }

/-- Member `LinkCreationOrder::disable_indexed` (lines 67-71). -/
def LinkCreationOrder.disable_indexed (self : LinkCreationOrder) : LinkCreationOrder :=
  { self with indexed_ := 0 }

/-- Member `LinkCreationOrder::tracked` (lines 73-76): the member converted to
`bool`, true iff it is not zero. -/
def LinkCreationOrder.tracked (self : LinkCreationOrder) : Bool := self.tracked_ != 0

/-- Member `LinkCreationOrder::indexed` (lines 78-81): the member converted to
`bool`, true iff it is not zero. -/
def LinkCreationOrder.indexed (self : LinkCreationOrder) : Bool := self.indexed_ != 0

end property_list

/-! ## `src/group_creation_property_list.cpp`: the remaining accessors -/

namespace property_list

/-- The engine primitives behind all accessors of the group-creation list:
those for the link phase change, and those for the local heap size hint, the
estimated link info and the link creation order.  A `get` primitive returns
what it writes through its pointer arguments next to the status; `size_t` and
`unsigned` values are natural numbers. -/
structure GroupCreationEngine (σ : Type) extends PhaseChangeEngine σ where
  H5Pget_local_heap_size_hint : σ → hid_t → herr_t × Nat
  H5Pset_local_heap_size_hint : σ → hid_t → Nat → herr_t × σ
  H5Pget_est_link_info : σ → hid_t → herr_t × Nat × Nat
  H5Pset_est_link_info : σ → hid_t → Nat → Nat → herr_t × σ
  H5Pget_link_creation_order : σ → hid_t → herr_t × Nat
  H5Pset_link_creation_order : σ → hid_t → Nat → herr_t × σ

/-- The engine refuses the identifier `id` in state `s`: each of its eight
primitives returns a negative status there, whatever the other arguments. -/
def GroupCreationEngine.Rejects {σ : Type} (G : GroupCreationEngine σ) (s : σ) (id : hid_t) :
    Prop :=
  (G.H5Pget_local_heap_size_hint s id).1 < 0 ∧
  (∀ size : Nat, (G.H5Pset_local_heap_size_hint s id size).1 < 0) ∧
  (G.H5Pget_est_link_info s id).1 < 0 ∧
  (∀ a b : Nat, (G.H5Pset_est_link_info s id a b).1 < 0) ∧
  (G.H5Pget_link_creation_order s id).1 < 0 ∧
  (∀ flags : Nat, (G.H5Pset_link_creation_order s id flags).1 < 0) ∧
  (G.H5Pget_link_phase_change s id).1 < 0 ∧
  (∀ a b : Nat, (G.H5Pset_link_phase_change s id a b).1 < 0)

variable {σ : Type}

/-- Private member `GroupCreation::set_estimated_link_info_` (lines 36-44). -/
def GroupCreation.set_estimated_link_info_ (G : GroupCreationEngine σ) (self : GroupCreation)
    (nlinks name_length : Nat) (error_message : String) (s : σ) :
    Except runtime_error Unit × σ :=
  let r := G.H5Pset_est_link_info s self.hid nlinks name_length
  if r.1 < 0 then (.error ⟨error_message⟩, r.2) else (.ok (), r.2)

/-- Private member `GroupCreation::get_estimated_link_info_` (lines 47-55): the
two reference parameters are returned as a pair `(nlinks, name_length)`. -/
def GroupCreation.get_estimated_link_info_ (G : GroupCreationEngine σ) (self : GroupCreation)
    (error_message : String) (s : σ) : Except runtime_error (Nat × Nat) :=
  let r := G.H5Pget_est_link_info s self.hid
  if r.1 < 0 then .error ⟨error_message⟩ else .ok (r.2.1, r.2.2)

/-- Getter `GroupCreation::local_heap_size_hint() const` (lines 88-97). -/
def GroupCreation.local_heap_size_hint (G : GroupCreationEngine σ) (self : GroupCreation)
    (s : σ) : Except runtime_error Nat :=
  let r := G.H5Pget_local_heap_size_hint s self.hid
  if r.1 < 0 then
    .error ⟨"Failure reading local heap size hint from group creation property list!"⟩
  else .ok r.2

/-- Setter `GroupCreation::local_heap_size_hint(size_t)` (lines 100-107). -/
def GroupCreation.set_local_heap_size_hint (G : GroupCreationEngine σ) (self : GroupCreation)
    (size : Nat) (s : σ) : Except runtime_error Unit × σ :=
  let r := G.H5Pset_local_heap_size_hint s self.hid size
  if r.1 < 0 then
    (.error ⟨"Failure setting local heap size hint in group creation property list!"⟩, r.2)
  else (.ok (), r.2)

/-- Getter `GroupCreation::estimated_number_of_links() const` (lines 110-118). -/
def GroupCreation.estimated_number_of_links (G : GroupCreationEngine σ)
    (self : GroupCreation) (s : σ) : Except runtime_error Nat :=
  match self.get_estimated_link_info_ G
      "Failure to retrieve the estimated number of links from a group creation property list!"
      s with
  | .error e => .error e
  | .ok (nlinks, _) => .ok nlinks

/-- Getter `GroupCreation::estimated_link_name_length() const` (lines 129-137). -/
def GroupCreation.estimated_link_name_length (G : GroupCreationEngine σ)
    (self : GroupCreation) (s : σ) : Except runtime_error Nat :=
  match self.get_estimated_link_info_ G
      "Failure to retrieve the estimated number of links from a group creation property list!"
      s with
  | .error e => .error e
  | .ok (_, name_length) => .ok name_length

/-- Setter `GroupCreation::estimated_number_of_links(unsigned)` (lines 121-126).
The argument `estimated_link_name_length()` is evaluated first. -/
def GroupCreation.set_estimated_number_of_links (G : GroupCreationEngine σ)
    (self : GroupCreation) (nlinks : Nat) (s : σ) : Except runtime_error Unit × σ :=
  match self.estimated_link_name_length G s with
  | .error e => (.error e, s)
  | .ok name_length =>
    self.set_estimated_link_info_ G nlinks name_length
      "Failure to set the estimated number of links  for group creation property list!"
      s

/-- Setter `GroupCreation::estimated_link_name_length(unsigned)` (lines 140-146).
The argument `estimated_number_of_links()` is evaluated first. -/
def GroupCreation.set_estimated_link_name_length (G : GroupCreationEngine σ)
    (self : GroupCreation) (name_length : Nat) (s : σ) : Except runtime_error Unit × σ :=
  match self.estimated_number_of_links G s with
  | .error e => (.error e, s)
  | .ok nlinks =>
    self.set_estimated_link_info_ G nlinks name_length
      "Failure setting the estimated linke name length for group creation property list!"
      s

/-- Setter `GroupCreation::link_creation_order(LinkCreationOrder)` (lines
149-157).  `to_unsigned` stands for the conversion of a `LinkCreationOrder` to
`unsigned`, which is declared outside the source files. -/
def GroupCreation.set_link_creation_order (G : GroupCreationEngine σ)
    (to_unsigned : LinkCreationOrder → Nat) (self : GroupCreation) (order : LinkCreationOrder)
    (s : σ) : Except runtime_error Unit × σ :=
  let r := G.H5Pset_link_creation_order s self.hid (to_unsigned order)
  if r.1 < 0 then
    (.error ⟨"Failure to set link creation order for group creation property list!"⟩, r.2)
  else (.ok (), r.2)

/-- Getter `GroupCreation::link_creation_order() const` (lines 160-171). -/
def GroupCreation.link_creation_order (G : GroupCreationEngine σ) (self : GroupCreation)
    (s : σ) : Except runtime_error LinkCreationOrder :=
  let r := G.H5Pget_link_creation_order s self.hid
  if r.1 < 0 then
    .error ⟨"Failure to retrieve link creation order from group creation property list!"⟩
  else .ok (LinkCreationOrder.from_unsigned r.2)

/-- The settings of one group-creation list, the state of `settingsEngine`. -/
structure Settings where
  heap_size_hint : Nat
  est_links : Nat
  est_name_length : Nat
  creation_order : Nat
  max_compact : Nat
  min_dense : Nat
deriving DecidableEq, Repr

/-- A small engine used to instantiate the theorems: it keeps the settings of
one list, shared by every non-negative identifier, and rejects negative
identifiers. -/
def settingsEngine : GroupCreationEngine Settings where
  H5Pset_link_phase_change := fun s id a b =>
    if id < 0 then (-1, s) else (0, { s with max_compact := a, min_dense := b })
  H5Pget_link_phase_change := fun s id =>
    if id < 0 then (-1, 0, 0) else (0, s.max_compact, s.min_dense)
  H5Pget_local_heap_size_hint := fun s id => if id < 0 then (-1, 0) else (0, s.heap_size_hint)
  H5Pset_local_heap_size_hint := fun s id v =>
    if id < 0 then (-1, s) else (0, { s with heap_size_hint := v })
  H5Pget_est_link_info := fun s id =>
    if id < 0 then (-1, 0, 0) else (0, s.est_links, s.est_name_length)
  H5Pset_est_link_info := fun s id a b =>
    if id < 0 then (-1, s) else (0, { s with est_links := a, est_name_length := b })
  H5Pget_link_creation_order := fun s id => if id < 0 then (-1, 0) else (0, s.creation_order)
  H5Pset_link_creation_order := fun s id v =>
    if id < 0 then (-1, s) else (0, { s with creation_order := v })

end property_list

/-! ## The class compatibility check (specification, section 4.2) -/

namespace handle

/-- Modelled from the spec: the class tag of a configuration list (section 3,
"Configuration-List Class"); the class `Class` and its comparison are not among
the source files. -/
structure ClassTag where
  name : String
deriving DecidableEq, Repr

/-- Modelled from the spec: the tag "group creation"; the constant
`kGroupCreate` is used by `GroupCreation::GroupCreation()` and declared outside
the source files. -/
def kGroupCreate : ClassTag := ⟨"group creation"⟩

/-- Modelled from the spec: the tag "file access"; the constant `kFileAccess`
is used by the file-access test and declared outside the source files. -/
def kFileAccess : ClassTag := ⟨"file access"⟩

/-- Modelled from the spec: the engine of section 6 with its class-tag query
for configuration-list identifiers, `none` when the query fails. -/
structure ClassEngine (σ : Type) extends IdEngine σ where
  get_class : σ → hid_t → Option ClassTag

variable {σ : Type}

/-- Modelled from the spec: the kind of a handle (section 3): `BadObject` for
an invalid handle, otherwise what the engine's type introspection reports, and
`BadObject` again when the introspection fails. -/
def Handle.kind (E : IdEngine σ) (h : Handle) (w : World σ) : HandleType :=
  if h.is_valid then (E.get_type w.eng h.native_id).getD .BadObject else .BadObject

/-- Modelled from the spec: a specialised configuration-list wrapper (section
4.2): the adopted handle and the class the wrapper stands for. -/
structure ConfigList where
  handle : Handle
  expected_class : ClassTag
deriving DecidableEq, Repr

/-- Modelled from the spec: `adopt(handle, expected_class)` of section 4.2 (the
constructors that take a handle are not among the source files).  A class tag
is attached to configuration-list handles only, so the kind is examined first:
a handle that is not of kind `PropertyList` fails with `InvalidHandle`; a
configuration list whose reported tag is not `expected_class` (or that reports
no tag) fails with `ClassMismatch`.  On success the handle is moved into the
wrapper.  Returns the outcome and the caller's handle after the call. -/
def adopt (E : ClassEngine σ) (handle : Handle) (expected_class : ClassTag) (w : World σ) :
    Except ErrorKind ConfigList × Handle :=
  if handle.kind E.toIdEngine w = .PropertyList then
    if E.get_class w.eng handle.native_id = some expected_class then
      (.ok ⟨(Handle.move_construct handle).1, expected_class⟩,
        (Handle.move_construct handle).2)
    else (.error .ClassMismatch, handle)
  else (.error .InvalidHandle, handle)

/-- The resource table together with the class tag of each identifier. -/
structure ClassTable where
  table : Table
  classes : hid_t → Option ClassTag

/-- Modelled from the spec: the reference-counting engine `tableEngine` with a
class-tag query that answers for live configuration lists only. -/
def classEngine : ClassEngine ClassTable where
  is_valid := fun s id => tableEngine.is_valid s.table id
  get_type := fun s id => tableEngine.get_type s.table id
  get_ref := fun s id => tableEngine.get_ref s.table id
  inc_ref := fun s id =>
    ((tableEngine.inc_ref s.table id).1, { s with table := (tableEngine.inc_ref s.table id).2 })
  release := fun s id =>
    ((tableEngine.release s.table id).1, { s with table := (tableEngine.release s.table id).2 })
  get_class := fun s id =>
    if tableEngine.get_type s.table id = some .PropertyList then s.classes id else none

/-- A world used to instantiate the theorems: identifier 3 is a live
group-creation list, identifier 4 a live file, nothing else is live, and no
primitive has been called yet. -/
def exampleLists : World ClassTable where
  eng :=
    { table :=
        { refs := fun id => if id = 3 ∨ id = 4 then 1 else 0,
          kinds := fun id => if id = 3 then some .PropertyList else some .File },
      classes := fun id => if id = 3 then some kGroupCreate else none }
  calls := []

end handle

/-! ## Theorems: group-creation property list -/

namespace property_list

variable {σ : Type}

/-- The getter pair on a state whose engine query succeeds with `(a, b)`. -/
theorem getters_of_engine_get (E : PhaseChangeEngine σ) (gcpl : GroupCreation) (s : σ)
    (a b : Nat) (hok : 0 ≤ (E.H5Pget_link_phase_change s gcpl.hid).1)
    (hpair : (E.H5Pget_link_phase_change s gcpl.hid).2 = (a, b)) :
    gcpl.maximum_links_for_compact_group E s = .ok a ∧
    gcpl.minimum_links_for_dense_group E s = .ok b := by
  have hna : ¬ (E.H5Pget_link_phase_change s gcpl.hid).1 < 0 := not_lt.mpr hok
  simp [GroupCreation.maximum_links_for_compact_group,
    GroupCreation.minimum_links_for_dense_group, GroupCreation.get_link_phase_change_,
    hna, hpair]

/-- The private setter on a state whose engine call succeeds. -/
theorem set_link_phase_change_ok (E : PhaseChangeEngine σ) (gcpl : GroupCreation) (s : σ)
    (a b : Nat) (msg : String) (hok : 0 ≤ (E.H5Pset_link_phase_change s gcpl.hid a b).1) :
    gcpl.set_link_phase_change_ E a b msg s
      = (.ok (), (E.H5Pset_link_phase_change s gcpl.hid a b).2) := by
  have hna : ¬ (E.H5Pset_link_phase_change s gcpl.hid a b).1 < 0 := not_lt.mpr hok
  simp [GroupCreation.set_link_phase_change_, hna]

/-- The instantiating engine satisfies the read-back contract. -/
theorem pairEngine_storesPair : pairEngine.StoresPair := by
  intro s id a b h
  by_cases hid : id < 0
  · simp [pairEngine, hid] at h
  · simp [pairEngine, hid]

/-- C1: on a group-creation list whose engine holds the link-phase-change pair
`(max_links, min_links)` and whose engine calls succeed, the setter
`maximum_links_for_compact_group(n)` hands the engine `(n, min_links)`, after
which the two getters return `n` and `min_links`; the setter
`minimum_links_for_dense_group(m)` hands the engine `(max_links, m)`, after
which the getters return `max_links` and `m`.  Each setter writes the other
value back as it read it. -/
theorem C1_link_phase_setters_keep_other_value (E : PhaseChangeEngine σ)
    (hE : E.StoresPair) (gcpl : GroupCreation) (s : σ) (max_links min_links n m : Nat)
    (hget : 0 ≤ (E.H5Pget_link_phase_change s gcpl.hid).1)
    (hpair : (E.H5Pget_link_phase_change s gcpl.hid).2 = (max_links, min_links))
    (hsetn : 0 ≤ (E.H5Pset_link_phase_change s gcpl.hid n min_links).1)
    (hsetm : 0 ≤ (E.H5Pset_link_phase_change s gcpl.hid max_links m).1) :
    (gcpl.set_maximum_links_for_compact_group E n s
        = (.ok (), (E.H5Pset_link_phase_change s gcpl.hid n min_links).2) ∧
      gcpl.maximum_links_for_compact_group E
        (gcpl.set_maximum_links_for_compact_group E n s).2 = .ok n ∧
      gcpl.minimum_links_for_dense_group E
        (gcpl.set_maximum_links_for_compact_group E n s).2 = .ok min_links) ∧
    (gcpl.set_minimum_links_for_dense_group E m s
        = (.ok (), (E.H5Pset_link_phase_change s gcpl.hid max_links m).2) ∧
      gcpl.maximum_links_for_compact_group E
        (gcpl.set_minimum_links_for_dense_group E m s).2 = .ok max_links ∧
      gcpl.minimum_links_for_dense_group E
        (gcpl.set_minimum_links_for_dense_group E m s).2 = .ok m) := by
  obtain ⟨hmax, hmin⟩ := getters_of_engine_get E gcpl s max_links min_links hget hpair
  have h1 : gcpl.set_maximum_links_for_compact_group E n s
      = (.ok (), (E.H5Pset_link_phase_change s gcpl.hid n min_links).2) := by
    simp only [GroupCreation.set_maximum_links_for_compact_group, hmin]
    exact set_link_phase_change_ok E gcpl s n min_links _ hsetn
  have h2 : gcpl.set_minimum_links_for_dense_group E m s
      = (.ok (), (E.H5Pset_link_phase_change s gcpl.hid max_links m).2) := by
    simp only [GroupCreation.set_minimum_links_for_dense_group, hmax]
    exact set_link_phase_change_ok E gcpl s max_links m _ hsetm
  obtain ⟨ha, hb⟩ := hE s gcpl.hid n min_links hsetn
  obtain ⟨hc, hd⟩ := hE s gcpl.hid max_links m hsetm
  refine ⟨⟨h1, ?_, ?_⟩, ⟨h2, ?_, ?_⟩⟩
  · rw [h1]; exact (getters_of_engine_get E gcpl _ n min_links ha hb).1
  · rw [h1]; exact (getters_of_engine_get E gcpl _ n min_links ha hb).2
  · rw [h2]; exact (getters_of_engine_get E gcpl _ max_links m hc hd).1
  · rw [h2]; exact (getters_of_engine_get E gcpl _ max_links m hc hd).2

/-- C1 at a concrete list: the engine holds `(8, 6)`; setting the maximum to 10
reads back `(10, 6)`, and setting the minimum to 4 reads back `(8, 4)`. -/
theorem C1_witness_ten_six :
    ((⟨1⟩ : GroupCreation).maximum_links_for_compact_group pairEngine
        ((⟨1⟩ : GroupCreation).set_maximum_links_for_compact_group pairEngine 10 (8, 6)).2
        = .ok 10 ∧
      (⟨1⟩ : GroupCreation).minimum_links_for_dense_group pairEngine
        ((⟨1⟩ : GroupCreation).set_maximum_links_for_compact_group pairEngine 10 (8, 6)).2
        = .ok 6) ∧
    ((⟨1⟩ : GroupCreation).maximum_links_for_compact_group pairEngine
        ((⟨1⟩ : GroupCreation).set_minimum_links_for_dense_group pairEngine 4 (8, 6)).2
        = .ok 8 ∧
      (⟨1⟩ : GroupCreation).minimum_links_for_dense_group pairEngine
        ((⟨1⟩ : GroupCreation).set_minimum_links_for_dense_group pairEngine 4 (8, 6)).2
        = .ok 4) :=
  have h := C1_link_phase_setters_keep_other_value pairEngine pairEngine_storesPair
    ⟨1⟩ (8, 6) 8 6 10 4 (by decide) rfl (by decide) (by decide)
  ⟨⟨h.1.2.1, h.1.2.2⟩, ⟨h.2.2.1, h.2.2.2⟩⟩

end property_list

/-! ## Theorems: node functions -/

namespace node

variable {σ : Type}

/-- The number of full stops adds up under string concatenation. -/
theorem count_dot_append (a b : String) :
    (a ++ b).data.count '.' = a.data.count '.' + b.data.count '.' := by
  rw [String.data_append, List.count_append]

/-- For one and the same call of `copy`, the message of the engine failure is
never the message of the existence check (the former is longer). -/
theorem copy_messages_differ (S B R : String) :
    "node::copy failed. Could not copy " ++ S ++ " to " ++ B ++ " / " ++ R
      ≠ "node::copy failed. " ++ B ++ " / " ++ R ++ " already exists!" := by
  intro h
  have h1 := congrArg String.length h
  simp only [String.length_append] at h1
  have e1 : ("node::copy failed. Could not copy " : String).length = 34 := by decide
  have e2 : (" to " : String).length = 4 := by decide
  have e3 : (" / " : String).length = 3 := by decide
  have e4 : ("node::copy failed. " : String).length = 19 := by decide
  have e5 : (" already exists!" : String).length = 16 := by decide
  omega

/-- For one and the same call of `move`, the message of the engine failure is
never the message of the existence check (the former is longer). -/
theorem move_messages_differ (S B R : String) :
    "node::move failed. Could not move " ++ S ++ " to " ++ B ++ " / " ++ R
      ≠ "node::move failed. " ++ B ++ " / " ++ R ++ " already exists!" := by
  intro h
  have h1 := congrArg String.length h
  simp only [String.length_append] at h1
  have e1 : ("node::move failed. Could not move " : String).length = 34 := by decide
  have e2 : (" to " : String).length = 4 := by decide
  have e3 : (" / " : String).length = 3 := by decide
  have e4 : ("node::move failed. " : String).length = 19 := by decide
  have e5 : (" already exists!" : String).length = 16 := by decide
  omega

/-- For one and the same call of `remove`, the message of the engine failure is
never the message of the existence check: the two have the same length, but
the latter holds one more full stop. -/
theorem remove_messages_differ (B R : String) :
    "node::remove failed. Could not remove" ++ B ++ " / " ++ R
      ≠ "node::remove failed. " ++ B ++ " / " ++ R ++ " does not exist." := by
  intro h
  have h1 : ("node::remove failed. Could not remove" ++ B ++ " / " ++ R).data.count '.'
      = ("node::remove failed. " ++ B ++ " / " ++ R ++ " does not exist.").data.count '.' := by
    rw [h]
  rw [count_dot_append, count_dot_append, count_dot_append, count_dot_append,
    count_dot_append, count_dot_append, count_dot_append] at h1
  have e1 : ("node::remove failed. Could not remove" : String).data.count '.' = 1 := by decide
  have e3 : ("node::remove failed. " : String).data.count '.' = 1 := by decide
  have e4 : (" does not exist." : String).data.count '.' = 1 := by decide
  omega

/-- When the destination name exists, `copy` throws before any engine call. -/
theorem copy_of_exists (E : LinkEngine σ) (source : Node) (base : Group) (rel_path : Path)
    (ocpl lcpl : hid_t) (w : World σ)
    (h : E.links_exists w.hier base.hid rel_path.str = true) :
    copy E source base rel_path ocpl lcpl w
      = (.error ⟨"node::copy failed. " ++ base.link_text ++ " / " ++ rel_path.str
          ++ " already exists!"⟩, w) := by
  simp [copy, h]

/-- When the destination name exists, `move` throws before any engine call. -/
theorem move_of_exists (E : LinkEngine σ) (source : Node) (destination_base : Group)
    (destination_path : Path) (lcpl lapl : hid_t) (w : World σ)
    (h : E.links_exists w.hier destination_base.hid destination_path.str = true) :
    move E source destination_base destination_path lcpl lapl w
      = (.error ⟨"node::move failed. " ++ destination_base.link_text ++ " / "
          ++ destination_path.str ++ " already exists!"⟩, w) := by
  simp [move, h]

/-- When the name does not exist, `remove` throws before any engine call. -/
theorem remove_of_not_exists (E : LinkEngine σ) (base : Group) (rel_path : Path)
    (lapl : hid_t) (w : World σ)
    (h : E.links_exists w.hier base.hid rel_path.str = false) :
    remove E base rel_path lapl w
      = (.error ⟨"node::remove failed. " ++ base.link_text ++ " / " ++ rel_path.str
          ++ " does not exist."⟩, w) := by
  simp [remove, h]

/-- C2: when a link with the destination name already exists under the
destination group, `copy` (both overloads) and `move` (both overloads) throw
the "already exists" error and return the world they were given: the hierarchy
is unchanged and no engine primitive has been recorded. -/
theorem C2_copy_move_onto_existing_name (E : LinkEngine σ) (mkPath : String → Path)
    (source : Node) (destination : Group) (rel_path : Path) (pl1 pl2 : hid_t) (w : World σ) :
    (E.links_exists w.hier destination.hid rel_path.str = true →
      copy E source destination rel_path pl1 pl2 w
        = (.error ⟨"node::copy failed. " ++ destination.link_text ++ " / " ++ rel_path.str
            ++ " already exists!"⟩, w) ∧
      move E source destination rel_path pl1 pl2 w
        = (.error ⟨"node::move failed. " ++ destination.link_text ++ " / " ++ rel_path.str
            ++ " already exists!"⟩, w)) ∧
    (E.links_exists w.hier destination.hid source.link.path.back = true →
      copy_same_name E source destination pl1 pl2 w
        = (.error ⟨"node::copy failed. " ++ destination.link_text ++ " / "
            ++ source.link.path.back ++ " already exists!"⟩, w)) ∧
    (E.links_exists w.hier destination.hid (mkPath source.link.path.back).str = true →
      move_same_name E mkPath source destination pl1 pl2 w
        = (.error ⟨"node::move failed. " ++ destination.link_text ++ " / "
            ++ (mkPath source.link.path.back).str ++ " already exists!"⟩, w)) := by
  refine ⟨fun h => ⟨copy_of_exists E source destination rel_path pl1 pl2 w h,
    move_of_exists E source destination rel_path pl1 pl2 w h⟩, fun h => ?_, fun h => ?_⟩
  · simp [copy_same_name, h]
  · exact move_of_exists E source destination _ pl1 pl2 w h

/-- C2 at a concrete hierarchy: group 2 already holds a link `data`; copying or
moving the node `/raw/data` of group 1 there fails and leaves the hierarchy and
the call record as they were. -/
theorem C2_witness_existing_data :
    (copy listEngine ⟨⟨⟨1, "f.h5:/raw"⟩, ⟨"/raw/data", "data"⟩, "f.h5:/raw/data"⟩⟩
        ⟨2, "f.h5:/entry"⟩ ⟨"data", "data"⟩ 10 11 ⟨[(1, "data"), (2, "data")], []⟩).2.calls = [] ∧
    (move listEngine ⟨⟨⟨1, "f.h5:/raw"⟩, ⟨"/raw/data", "data"⟩, "f.h5:/raw/data"⟩⟩
        ⟨2, "f.h5:/entry"⟩ ⟨"data", "data"⟩ 10 11 ⟨[(1, "data"), (2, "data")], []⟩).2.hier
      = [(1, "data"), (2, "data")] ∧
    (copy_same_name listEngine ⟨⟨⟨1, "f.h5:/raw"⟩, ⟨"/raw/data", "data"⟩, "f.h5:/raw/data"⟩⟩
        ⟨2, "f.h5:/entry"⟩ 10 11 ⟨[(1, "data"), (2, "data")], []⟩).1
      = .error ⟨"node::copy failed. f.h5:/entry / data already exists!"⟩ ∧
    (move_same_name listEngine namePath
        ⟨⟨⟨1, "f.h5:/raw"⟩, ⟨"/raw/data", "data"⟩, "f.h5:/raw/data"⟩⟩
        ⟨2, "f.h5:/entry"⟩ 10 11 ⟨[(1, "data"), (2, "data")], []⟩).1
      = .error ⟨"node::move failed. f.h5:/entry / data already exists!"⟩ :=
  have h := C2_copy_move_onto_existing_name listEngine namePath
    ⟨⟨⟨1, "f.h5:/raw"⟩, ⟨"/raw/data", "data"⟩, "f.h5:/raw/data"⟩⟩
    ⟨2, "f.h5:/entry"⟩ ⟨"data", "data"⟩ 10 11 ⟨[(1, "data"), (2, "data")], []⟩
  ⟨by rw [(h.1 (by decide)).1], by rw [(h.1 (by decide)).2], by rw [h.2.1 (by decide)]; rfl,
    by rw [h.2.2 (by decide)]; rfl⟩

/-- C3: when no link with the given name exists under the base group, `remove`
throws the "does not exist" error and returns the world it was given: the
hierarchy is unchanged and no engine primitive has been recorded.  The
single-node overload does the same for the last element of the node's path
under the node's parent. -/
theorem C3_remove_missing_name (E : LinkEngine σ) (mkPath : String → Path)
    (object : Node) (base : Group) (rel_path : Path) (lapl : hid_t) (w : World σ) :
    (E.links_exists w.hier base.hid rel_path.str = false →
      remove E base rel_path lapl w
        = (.error ⟨"node::remove failed. " ++ base.link_text ++ " / " ++ rel_path.str
            ++ " does not exist."⟩, w)) ∧
    (E.links_exists w.hier object.link.parent.hid (mkPath object.link.path.back).str = false →
      remove_node E mkPath object lapl w
        = (.error ⟨"node::remove failed. " ++ object.link.parent.link_text ++ " / "
            ++ (mkPath object.link.path.back).str ++ " does not exist."⟩, w)) :=
  ⟨remove_of_not_exists E base rel_path lapl w,
    remove_of_not_exists E object.link.parent (mkPath object.link.path.back) lapl w⟩

/-- C3 at a concrete hierarchy: group 2 holds no link `data`; removing it, by
path or through a node whose parent is group 2, fails and leaves the hierarchy
and the call record as they were. -/
theorem C3_witness_missing_data :
    remove listEngine ⟨2, "f.h5:/entry"⟩ ⟨"data", "data"⟩ 12 ⟨[(1, "data")], []⟩
      = (.error ⟨"node::remove failed. f.h5:/entry / data does not exist."⟩,
          ⟨[(1, "data")], []⟩) ∧
    remove_node listEngine namePath
        ⟨⟨⟨2, "f.h5:/entry"⟩, ⟨"/entry/data", "data"⟩, "f.h5:/entry/data"⟩⟩ 12
        ⟨[(1, "data")], []⟩
      = (.error ⟨"node::remove failed. f.h5:/entry / data does not exist."⟩,
          ⟨[(1, "data")], []⟩) :=
  have h := C3_remove_missing_name listEngine namePath
    ⟨⟨⟨2, "f.h5:/entry"⟩, ⟨"/entry/data", "data"⟩, "f.h5:/entry/data"⟩⟩
    ⟨2, "f.h5:/entry"⟩ ⟨"data", "data"⟩ 12 ⟨[(1, "data")], []⟩
  ⟨h.1 (by decide), h.2 (by decide)⟩

/-- What `copy` does once the existence check has passed. -/
theorem copy_of_not_exists (E : LinkEngine σ) (source : Node) (base : Group) (rel_path : Path)
    (ocpl lcpl : hid_t) (w : World σ)
    (h : E.links_exists w.hier base.hid rel_path.str = false) :
    (copy E source base rel_path ocpl lcpl w).2
        = ⟨(E.H5Ocopy w.hier source.link.parent.hid source.link.path.back base.hid
              rel_path.str ocpl lcpl).2,
            w.calls ++ [.H5Ocopy source.link.parent.hid source.link.path.back base.hid
              rel_path.str ocpl lcpl]⟩ ∧
    ((copy E source base rel_path ocpl lcpl w).1 = .ok () ↔
      0 ≤ (E.H5Ocopy w.hier source.link.parent.hid source.link.path.back base.hid
        rel_path.str ocpl lcpl).1) ∧
    ((E.H5Ocopy w.hier source.link.parent.hid source.link.path.back base.hid
        rel_path.str ocpl lcpl).1 < 0 →
      (copy E source base rel_path ocpl lcpl w).1
        = .error ⟨"node::copy failed. Could not copy " ++ source.link.text ++ " to "
            ++ base.link_text ++ " / " ++ rel_path.str⟩) := by
  by_cases hs : (E.H5Ocopy w.hier source.link.parent.hid source.link.path.back base.hid
      rel_path.str ocpl lcpl).1 < 0
  · simp [copy, h, World.H5Ocopy, hs]
  · simp [copy, h, World.H5Ocopy, hs, not_lt.mp hs]

/-- What the same-name `copy` does once the existence check has passed. -/
theorem copy_same_name_of_not_exists (E : LinkEngine σ) (source : Node) (destination : Group)
    (ocpl lcpl : hid_t) (w : World σ)
    (h : E.links_exists w.hier destination.hid source.link.path.back = false) :
    (copy_same_name E source destination ocpl lcpl w).2
        = ⟨(E.H5Ocopy w.hier source.link.parent.hid source.link.path.back destination.hid
              source.link.path.back ocpl lcpl).2,
            w.calls ++ [.H5Ocopy source.link.parent.hid source.link.path.back destination.hid
              source.link.path.back ocpl lcpl]⟩ ∧
    ((copy_same_name E source destination ocpl lcpl w).1 = .ok () ↔
      0 ≤ (E.H5Ocopy w.hier source.link.parent.hid source.link.path.back destination.hid
        source.link.path.back ocpl lcpl).1) ∧
    ((E.H5Ocopy w.hier source.link.parent.hid source.link.path.back destination.hid
        source.link.path.back ocpl lcpl).1 < 0 →
      (copy_same_name E source destination ocpl lcpl w).1
        = .error ⟨"node::copy failed. Could not copy " ++ source.link.text ++ " to "
            ++ destination.link_text ++ " / " ++ source.link.path.back⟩) := by
  by_cases hs : (E.H5Ocopy w.hier source.link.parent.hid source.link.path.back destination.hid
      source.link.path.back ocpl lcpl).1 < 0
  · simp [copy_same_name, h, World.H5Ocopy, hs]
  · simp [copy_same_name, h, World.H5Ocopy, hs, not_lt.mp hs]

/-- What `move` does once the existence check has passed. -/
theorem move_of_not_exists (E : LinkEngine σ) (source : Node) (destination_base : Group)
    (destination_path : Path) (lcpl lapl : hid_t) (w : World σ)
    (h : E.links_exists w.hier destination_base.hid destination_path.str = false) :
    (move E source destination_base destination_path lcpl lapl w).2
        = ⟨(E.H5Lmove w.hier source.link.parent.hid source.link.path.back destination_base.hid
              destination_path.str lcpl lapl).2,
            w.calls ++ [.H5Lmove source.link.parent.hid source.link.path.back
              destination_base.hid destination_path.str lcpl lapl]⟩ ∧
    ((move E source destination_base destination_path lcpl lapl w).1 = .ok () ↔
      0 ≤ (E.H5Lmove w.hier source.link.parent.hid source.link.path.back destination_base.hid
        destination_path.str lcpl lapl).1) ∧
    ((E.H5Lmove w.hier source.link.parent.hid source.link.path.back destination_base.hid
        destination_path.str lcpl lapl).1 < 0 →
      (move E source destination_base destination_path lcpl lapl w).1
        = .error ⟨"node::move failed. Could not move " ++ source.link.text ++ " to "
            ++ destination_base.link_text ++ " / " ++ destination_path.str⟩) := by
  by_cases hs : (E.H5Lmove w.hier source.link.parent.hid source.link.path.back
      destination_base.hid destination_path.str lcpl lapl).1 < 0
  · simp [move, h, World.H5Lmove, hs]
  · simp [move, h, World.H5Lmove, hs, not_lt.mp hs]

/-- What `remove` does once the existence check has passed. -/
theorem remove_of_exists (E : LinkEngine σ) (base : Group) (rel_path : Path)
    (lapl : hid_t) (w : World σ)
    (h : E.links_exists w.hier base.hid rel_path.str = true) :
    (remove E base rel_path lapl w).2
        = ⟨(E.H5Ldelete w.hier base.hid rel_path.str lapl).2,
            w.calls ++ [.H5Ldelete base.hid rel_path.str lapl]⟩ ∧
    ((remove E base rel_path lapl w).1 = .ok () ↔
      0 ≤ (E.H5Ldelete w.hier base.hid rel_path.str lapl).1) ∧
    ((E.H5Ldelete w.hier base.hid rel_path.str lapl).1 < 0 →
      (remove E base rel_path lapl w).1
        = .error ⟨"node::remove failed. Could not remove" ++ base.link_text ++ " / "
            ++ rel_path.str⟩) := by
  by_cases hs : (E.H5Ldelete w.hier base.hid rel_path.str lapl).1 < 0
  · simp [remove, h, World.H5Ldelete, hs]
  · simp [remove, h, World.H5Ldelete, hs, not_lt.mp hs]

/-- C4: once the existence check has passed, each of `copy` (both overloads),
`move` and `remove` calls its engine primitive exactly once (the call record
grows by that one call and the hierarchy is the one the engine returned),
returns normally iff the engine's status is not negative, and on a negative
status throws its own failure message, built from the source and destination
descriptions.  For the same call that message always differs from the message
of the existence check. -/
theorem C4_engine_call_once_and_failure_kind (E : LinkEngine σ) (source : Node)
    (base : Group) (rel_path old_path : Path) (pl1 pl2 : hid_t) (w : World σ) :
    (E.links_exists w.hier base.hid rel_path.str = false →
      ((copy E source base rel_path pl1 pl2 w).2
          = ⟨(E.H5Ocopy w.hier source.link.parent.hid source.link.path.back base.hid
                rel_path.str pl1 pl2).2,
              w.calls ++ [.H5Ocopy source.link.parent.hid source.link.path.back base.hid
                rel_path.str pl1 pl2]⟩ ∧
        ((copy E source base rel_path pl1 pl2 w).1 = .ok () ↔
          0 ≤ (E.H5Ocopy w.hier source.link.parent.hid source.link.path.back base.hid
            rel_path.str pl1 pl2).1) ∧
        ((E.H5Ocopy w.hier source.link.parent.hid source.link.path.back base.hid
            rel_path.str pl1 pl2).1 < 0 →
          (copy E source base rel_path pl1 pl2 w).1
            = .error ⟨"node::copy failed. Could not copy " ++ source.link.text ++ " to "
                ++ base.link_text ++ " / " ++ rel_path.str⟩)) ∧
      ((move E source base rel_path pl1 pl2 w).2
          = ⟨(E.H5Lmove w.hier source.link.parent.hid source.link.path.back base.hid
                rel_path.str pl1 pl2).2,
              w.calls ++ [.H5Lmove source.link.parent.hid source.link.path.back base.hid
                rel_path.str pl1 pl2]⟩ ∧
        ((move E source base rel_path pl1 pl2 w).1 = .ok () ↔
          0 ≤ (E.H5Lmove w.hier source.link.parent.hid source.link.path.back base.hid
            rel_path.str pl1 pl2).1) ∧
        ((E.H5Lmove w.hier source.link.parent.hid source.link.path.back base.hid
            rel_path.str pl1 pl2).1 < 0 →
          (move E source base rel_path pl1 pl2 w).1
            = .error ⟨"node::move failed. Could not move " ++ source.link.text ++ " to "
                ++ base.link_text ++ " / " ++ rel_path.str⟩))) ∧
    (E.links_exists w.hier base.hid source.link.path.back = false →
      (copy_same_name E source base pl1 pl2 w).2
          = ⟨(E.H5Ocopy w.hier source.link.parent.hid source.link.path.back base.hid
                source.link.path.back pl1 pl2).2,
              w.calls ++ [.H5Ocopy source.link.parent.hid source.link.path.back base.hid
                source.link.path.back pl1 pl2]⟩ ∧
        ((copy_same_name E source base pl1 pl2 w).1 = .ok () ↔
          0 ≤ (E.H5Ocopy w.hier source.link.parent.hid source.link.path.back base.hid
            source.link.path.back pl1 pl2).1) ∧
        ((E.H5Ocopy w.hier source.link.parent.hid source.link.path.back base.hid
            source.link.path.back pl1 pl2).1 < 0 →
          (copy_same_name E source base pl1 pl2 w).1
            = .error ⟨"node::copy failed. Could not copy " ++ source.link.text ++ " to "
                ++ base.link_text ++ " / " ++ source.link.path.back⟩)) ∧
    (E.links_exists w.hier base.hid old_path.str = true →
      (remove E base old_path pl1 w).2
          = ⟨(E.H5Ldelete w.hier base.hid old_path.str pl1).2,
              w.calls ++ [.H5Ldelete base.hid old_path.str pl1]⟩ ∧
        ((remove E base old_path pl1 w).1 = .ok () ↔
          0 ≤ (E.H5Ldelete w.hier base.hid old_path.str pl1).1) ∧
        ((E.H5Ldelete w.hier base.hid old_path.str pl1).1 < 0 →
          (remove E base old_path pl1 w).1
            = .error ⟨"node::remove failed. Could not remove" ++ base.link_text ++ " / "
                ++ old_path.str⟩)) ∧
    (("node::copy failed. Could not copy " ++ source.link.text ++ " to "
          ++ base.link_text ++ " / " ++ rel_path.str
        ≠ "node::copy failed. " ++ base.link_text ++ " / " ++ rel_path.str
          ++ " already exists!") ∧
      ("node::copy failed. Could not copy " ++ source.link.text ++ " to "
          ++ base.link_text ++ " / " ++ source.link.path.back
        ≠ "node::copy failed. " ++ base.link_text ++ " / " ++ source.link.path.back
          ++ " already exists!") ∧
      ("node::move failed. Could not move " ++ source.link.text ++ " to "
          ++ base.link_text ++ " / " ++ rel_path.str
        ≠ "node::move failed. " ++ base.link_text ++ " / " ++ rel_path.str
          ++ " already exists!") ∧
      ("node::remove failed. Could not remove" ++ base.link_text ++ " / " ++ old_path.str
        ≠ "node::remove failed. " ++ base.link_text ++ " / " ++ old_path.str
          ++ " does not exist.")) :=
  ⟨fun h => ⟨copy_of_not_exists E source base rel_path pl1 pl2 w h,
      move_of_not_exists E source base rel_path pl1 pl2 w h⟩,
    copy_same_name_of_not_exists E source base pl1 pl2 w,
    remove_of_exists E base old_path pl1 w,
    copy_messages_differ _ _ _, copy_messages_differ _ _ _, move_messages_differ _ _ _,
    remove_messages_differ _ _⟩

/-- C4 at a concrete hierarchy with a link `data` in group 1 and a link `old`
in group 2.  With a rejected link-creation list (-1) the engine refuses to copy
or move `data` to `2 / copy`: one call is recorded and the failure message is
thrown.  With accepted lists the copy succeeds after one call, and so does the
removal of `2 / old`. -/
theorem C4_witness_one_call :
    ((copy listEngine ⟨⟨⟨1, "f.h5:/raw"⟩, ⟨"/raw/data", "data"⟩, "f.h5:/raw/data"⟩⟩
          ⟨2, "f.h5:/entry"⟩ ⟨"copy", "copy"⟩ 10 (-1) ⟨[(1, "data"), (2, "old")], []⟩)
        = (.error ⟨"node::copy failed. Could not copy f.h5:/raw/data to f.h5:/entry / copy"⟩,
            ⟨[(1, "data"), (2, "old")], [.H5Ocopy 1 "data" 2 "copy" 10 (-1)]⟩)) ∧
    ((move listEngine ⟨⟨⟨1, "f.h5:/raw"⟩, ⟨"/raw/data", "data"⟩, "f.h5:/raw/data"⟩⟩
          ⟨2, "f.h5:/entry"⟩ ⟨"copy", "copy"⟩ 10 (-1) ⟨[(1, "data"), (2, "old")], []⟩)
        = (.error ⟨"node::move failed. Could not move f.h5:/raw/data to f.h5:/entry / copy"⟩,
            ⟨[(1, "data"), (2, "old")], [.H5Lmove 1 "data" 2 "copy" 10 (-1)]⟩)) ∧
    ((copy_same_name listEngine
          ⟨⟨⟨1, "f.h5:/raw"⟩, ⟨"/raw/data", "data"⟩, "f.h5:/raw/data"⟩⟩
          ⟨2, "f.h5:/entry"⟩ 10 11 ⟨[(1, "data"), (2, "old")], []⟩)
        = (.ok (), ⟨[(2, "data"), (1, "data"), (2, "old")],
            [.H5Ocopy 1 "data" 2 "data" 10 11]⟩)) ∧
    ((remove listEngine ⟨2, "f.h5:/entry"⟩ ⟨"old", "old"⟩ 10 ⟨[(1, "data"), (2, "old")], []⟩)
        = (.ok (), ⟨[(1, "data")], [.H5Ldelete 2 "old" 10]⟩)) :=
  have bad := C4_engine_call_once_and_failure_kind listEngine
    ⟨⟨⟨1, "f.h5:/raw"⟩, ⟨"/raw/data", "data"⟩, "f.h5:/raw/data"⟩⟩
    ⟨2, "f.h5:/entry"⟩ ⟨"copy", "copy"⟩ ⟨"old", "old"⟩ 10 (-1) ⟨[(1, "data"), (2, "old")], []⟩
  have good := C4_engine_call_once_and_failure_kind listEngine
    ⟨⟨⟨1, "f.h5:/raw"⟩, ⟨"/raw/data", "data"⟩, "f.h5:/raw/data"⟩⟩
    ⟨2, "f.h5:/entry"⟩ ⟨"copy", "copy"⟩ ⟨"old", "old"⟩ 10 11 ⟨[(1, "data"), (2, "old")], []⟩
  ⟨Prod.ext ((bad.1 (by decide)).1.2.2 (by decide)) (bad.1 (by decide)).1.1,
    Prod.ext ((bad.1 (by decide)).2.2.2 (by decide)) (bad.1 (by decide)).2.1,
    Prod.ext ((good.2.1 (by decide)).2.1.mpr (by decide)) (good.2.1 (by decide)).1,
    Prod.ext ((good.2.2.1 (by decide)).2.1.mpr (by decide)) (good.2.2.1 (by decide)).1⟩

end node

/-! ## Theorems: object handle -/

namespace handle

variable {σ : Type}

/-- The default-constructed handle is not valid. -/
theorem default_construct_not_valid : Handle.default_construct.is_valid = false := by
  decide

/-- Closing an invalid handle fails with `InvalidHandle` and changes nothing. -/
theorem close_of_not_valid (E : IdEngine σ) (h : Handle) (w : World σ)
    (hv : h.is_valid = false) : h.close E w = (.error .InvalidHandle, h, w) := by
  simp [Handle.close, hv]

/-- C5: a freshly default-constructed handle is invalid: `is_valid()` is false,
`get_type()` returns `BadObject` without an error, `get_reference_count()` and
`close()` fail with `InvalidHandle`.  The three queries take no part in the
state; `close()` returns the handle and the world (engine state and call
record) exactly as it received them. -/
theorem C5_default_handle_is_invalid (E : IdEngine σ) (w : World σ) :
    Handle.default_construct.is_valid = false ∧
    Handle.default_construct.get_type E w = .ok .BadObject ∧
    Handle.default_construct.get_reference_count E w = .error .InvalidHandle ∧
    Handle.default_construct.close E w
      = (.error .InvalidHandle, Handle.default_construct, w) := by
  refine ⟨default_construct_not_valid, ?_, ?_, close_of_not_valid E _ w default_construct_not_valid⟩
  · simp [Handle.get_type, default_construct_not_valid]
  · simp [Handle.get_reference_count, default_construct_not_valid]

/-- C6: constructing a handle from a raw identifier that is not a valid, open
resource identifier fails with `InvalidHandle`, so the construction yields no
handle at all; this covers every identifier the engine does not report as
valid and every negative one, in particular the sentinel -1, whatever the
engine state. -/
theorem C6_construct_rejects_invalid_identifier (E : IdEngine σ) (w : World σ)
    (raw_id : hid_t) :
    (valid_open E w.eng raw_id = false →
      Handle.construct E raw_id w = .error .InvalidHandle ∧
      ∀ h : Handle, Handle.construct E raw_id w ≠ .ok h) ∧
    (E.is_valid w.eng raw_id = false → valid_open E w.eng raw_id = false) ∧
    (raw_id < 0 → valid_open E w.eng raw_id = false) ∧
    Handle.construct E (-1) w = .error .InvalidHandle ∧
    Handle.construct E sentinel w = .error .InvalidHandle := by
  refine ⟨fun h => ?_, fun h => ?_, fun h => ?_, ?_, ?_⟩
  · simp [Handle.construct, h]
  · simp [valid_open, h]
  · simp [valid_open, not_le.mpr h]
  · simp [Handle.construct, valid_open]
  · simp [Handle.construct, valid_open, sentinel]

/-- C6 on the reference-counting engine: identifier 7 has no live entry in the
empty table, so constructing a handle from it fails with `InvalidHandle`. -/
theorem C6_witness_dead_identifier :
    Handle.construct tableEngine 7 ⟨⟨fun _ => 0, fun _ => none⟩, []⟩
      = .error .InvalidHandle :=
  ((C6_construct_rejects_invalid_identifier tableEngine
    ⟨⟨fun _ => 0, fun _ => none⟩, []⟩ 7).1 (by decide)).1

/-- Closing a valid handle: one release call, and the handle is invalid
afterwards whatever the status. -/
theorem close_of_valid (E : IdEngine σ) (h : Handle) (w : World σ)
    (hv : h.is_valid = true) :
    (h.close E w).2 = (Handle.default_construct,
      ⟨(E.release w.eng h.native_id).2, w.calls ++ [.release h.native_id]⟩) ∧
    (0 ≤ (E.release w.eng h.native_id).1 → (h.close E w).1 = .ok ()) ∧
    ((E.release w.eng h.native_id).1 < 0 → (h.close E w).1 = .error .CloseFailure) := by
  by_cases hs : (E.release w.eng h.native_id).1 < 0
  · simp [Handle.close, hv, World.release, hs]
  · simp [Handle.close, hv, World.release, hs, not_lt.mp hs]

/-- Closing again and again after the first close changes nothing any more. -/
theorem close_iterate (E : IdEngine σ) (h : Handle) (w : World σ) (hv : h.is_valid = true)
    (n : Nat) :
    (fun p : Handle × World σ => (p.1.close E p.2).2)^[n + 1] (h, w) = (h.close E w).2 := by
  induction n with
  | zero => rfl
  | succ k ih =>
    rw [Function.iterate_succ_apply', ih, (close_of_valid E h w hv).1]
    simp [close_of_not_valid E _ _ default_construct_not_valid]

/-- C9: closing a valid handle calls the engine's release primitive once and
leaves the handle invalid, whether the release succeeded (the close returns
normally) or failed (the close fails with `CloseFailure`).  Every later
`close()` on that handle, in whatever world, fails with `InvalidHandle` and
returns handle and world untouched, so it records no further release call:
closing `n + 1` times in a row ends in the same handle and the same world as
closing once. -/
theorem C9_close_releases_at_most_once (E : IdEngine σ) (h : Handle) (w : World σ)
    (hv : h.is_valid = true) :
    (h.close E w).2.1.is_valid = false ∧
    (0 ≤ (E.release w.eng h.native_id).1 → (h.close E w).1 = .ok ()) ∧
    ((E.release w.eng h.native_id).1 < 0 → (h.close E w).1 = .error .CloseFailure) ∧
    (h.close E w).2.2
      = ⟨(E.release w.eng h.native_id).2, w.calls ++ [.release h.native_id]⟩ ∧
    (∀ w2 : World σ, (h.close E w).2.1.close E w2
      = (.error .InvalidHandle, (h.close E w).2.1, w2)) ∧
    (∀ n : Nat,
      (fun p : Handle × World σ => (p.1.close E p.2).2)^[n + 1] (h, w) = (h.close E w).2) := by
  obtain ⟨h2, hok, hfail⟩ := close_of_valid E h w hv
  refine ⟨?_, hok, hfail, ?_, fun w2 => ?_, close_iterate E h w hv⟩
  · rw [h2]; exact default_construct_not_valid
  · rw [h2]
  · rw [h2]; exact close_of_not_valid E _ w2 default_construct_not_valid

/-- C9 on the reference-counting engine.  A handle on identifier 5 whose
resource is live closes normally; one whose resource the engine has already
released fails with `CloseFailure`; in both cases the handle is invalid
afterwards and three closes in a row record a single release call. -/
theorem C9_witness_close_twice :
    ((⟨5⟩ : Handle).close tableEngine
        ⟨⟨fun id => if id = 5 then 1 else 0, fun _ => some .File⟩, []⟩).1 = .ok () ∧
    ((⟨5⟩ : Handle).close tableEngine ⟨⟨fun _ => 0, fun _ => none⟩, []⟩).1
      = .error .CloseFailure ∧
    ((⟨5⟩ : Handle).close tableEngine ⟨⟨fun _ => 0, fun _ => none⟩, []⟩).2.1.is_valid
      = false ∧
    ((fun p : Handle × World Table => (p.1.close tableEngine p.2).2)^[3]
        (⟨5⟩, ⟨⟨fun _ => 0, fun _ => none⟩, []⟩)).2.calls = [.release 5] :=
  have live := C9_close_releases_at_most_once tableEngine ⟨5⟩
    ⟨⟨fun id => if id = 5 then 1 else 0, fun _ => some .File⟩, []⟩ (by decide)
  have dead := C9_close_releases_at_most_once tableEngine ⟨5⟩
    ⟨⟨fun _ => 0, fun _ => none⟩, []⟩ (by decide)
  ⟨live.2.1 (by decide), dead.2.2.1 (by decide), dead.1,
    by rw [dead.2.2.2.2.2 2, dead.2.2.2.1]; rfl⟩

/-- C10: handle equality is decided by the native identifier alone: two
handles are equal iff their identifiers are equal.  Hence two
default-constructed handles are equal, any two invalid handles are equal, and
a valid handle is never equal to an invalid one.  The comparison is a total
function into the Booleans: it cannot fail. -/
theorem C10_equality_by_native_id (a b : Handle) :
    (a.equal b = true ↔ a.native_id = b.native_id) ∧
    Handle.default_construct.equal Handle.default_construct = true ∧
    (a.is_valid = false → b.is_valid = false → a.equal b = true) ∧
    (a.is_valid = true → b.is_valid = false → a.equal b = false ∧ b.equal a = false) := by
  refine ⟨by simp [Handle.equal], by decide, fun ha hb => ?_, fun ha hb => ?_⟩
  · simp only [Handle.is_valid, bne_eq_false_iff_eq] at ha hb
    simp [Handle.equal, ha, hb]
  · simp only [Handle.is_valid, bne_iff_ne, ne_eq, bne_eq_false_iff_eq] at ha hb
    simp only [Handle.equal, beq_eq_false_iff_ne, ne_eq, hb]
    exact ⟨ha, fun h => ha h.symm⟩

/-- C10 at concrete handles: two handles on identifier 5 are equal, handles on 5
and 6 are not, and the valid handle on 5 differs from the default-constructed
one. -/
theorem C10_witness_valid_and_invalid :
    (⟨5⟩ : Handle).equal ⟨5⟩ = true ∧ (⟨5⟩ : Handle).equal ⟨6⟩ = false ∧
    (⟨5⟩ : Handle).equal Handle.default_construct = false ∧
    Handle.default_construct.equal ⟨5⟩ = false :=
  ⟨(C10_equality_by_native_id ⟨5⟩ ⟨5⟩).1.mpr rfl, by decide,
    ((C10_equality_by_native_id ⟨5⟩ Handle.default_construct).2.2.2 (by decide)
      (by decide)).1,
    ((C10_equality_by_native_id ⟨5⟩ Handle.default_construct).2.2.2 (by decide)
      (by decide)).2⟩

/-- The increment primitive of the reference-counting engine on a live
identifier. -/
theorem table_inc_ref_live (t : Table) (id : hid_t) (hl : t.live id = true) :
    tableEngine.inc_ref t id = (0, t.set_refs id (t.refs id + 1)) := by
  show (if t.live id = true then _ else _) = _
  rw [if_pos hl]

/-- The release primitive of the reference-counting engine on a live
identifier. -/
theorem table_release_live (t : Table) (id : hid_t) (hl : t.live id = true) :
    tableEngine.release t id = (0, t.set_refs id (t.refs id - 1)) := by
  show (if t.live id = true then _ else _) = _
  rw [if_pos hl]

/-- The release primitive of the reference-counting engine on an identifier
that is not live. -/
theorem table_release_dead (t : Table) (id : hid_t) (hl : t.live id = false) :
    tableEngine.release t id = (-1, t) := by
  show (if t.live id = true then _ else _) = _
  rw [if_neg (by simp [hl])]

/-- Liveness and count of an identifier after its own count was rewritten. -/
theorem live_set_refs_same (t : Table) (id : hid_t) (n : Nat) (hl : t.live id = true) :
    (t.set_refs id n).live id = decide (0 < n) ∧ (t.set_refs id n).refs id = n := by
  simp only [Table.live, Bool.and_eq_true, decide_eq_true_eq] at hl
  simp [Table.live, Table.set_refs, hl.1]

/-- Liveness and count of an identifier after another count was rewritten. -/
theorem live_set_refs_other (t : Table) (id other : hid_t) (n : Nat) (hne : other ≠ id) :
    (t.set_refs other n).live id = t.live id ∧ (t.set_refs other n).refs id = t.refs id := by
  simp [Table.live, Table.set_refs, Function.update_noteq (Ne.symm hne)]

/-- On the reference-counting engine the count query returns `c` exactly for
a valid handle whose identifier is live with count `c`. -/
theorem get_reference_count_table (h : Handle) (w : World Table) (c : Nat) :
    h.get_reference_count tableEngine w = .ok c ↔
      h.is_valid = true ∧ w.eng.live h.native_id = true ∧ w.eng.refs h.native_id = c := by
  have hg : tableEngine.get_ref w.eng h.native_id
      = if w.eng.live h.native_id = true then (w.eng.refs h.native_id : Int) else -1 := rfl
  have hn : ¬ ((w.eng.refs h.native_id : Int) < 0) := not_lt.mpr (Int.ofNat_nonneg _)
  unfold Handle.get_reference_count
  rw [hg]
  cases hv : h.is_valid <;> cases hl : w.eng.live h.native_id <;> simp [hn]

/-- Releasing one identifier leaves every other identifier as it was. -/
theorem release_other (t : Table) (id other : hid_t) (hne : other ≠ id) :
    (tableEngine.release t other).2.live id = t.live id ∧
    (tableEngine.release t other).2.refs id = t.refs id := by
  cases hl : t.live other
  · rw [table_release_dead t other hl]; exact ⟨rfl, rfl⟩
  · rw [table_release_live t other hl]; exact live_set_refs_other t id other _ hne

/-- Copy construction from a valid handle on a live identifier with count `c`:
one increment is recorded, the new handle wraps the same identifier, and the
count is `c + 1`. -/
theorem copy_construct_table (h : Handle) (w : World Table) (c : Nat)
    (hc : h.get_reference_count tableEngine w = .ok c) :
    (h.copy_construct tableEngine w).1 = .ok h ∧
    (h.copy_construct tableEngine w).2.calls = w.calls ++ [.inc_ref h.native_id] ∧
    h.get_reference_count tableEngine (h.copy_construct tableEngine w).2 = .ok (c + 1) := by
  obtain ⟨hv, hl, hr⟩ := (get_reference_count_table h w c).mp hc
  have hcc : h.copy_construct tableEngine w
      = (.ok h, ⟨w.eng.set_refs h.native_id (w.eng.refs h.native_id + 1),
          w.calls ++ [.inc_ref h.native_id]⟩) := by
    simp [Handle.copy_construct, hv, World.inc_ref, table_inc_ref_live w.eng h.native_id hl]
  obtain ⟨h1, h2⟩ := live_set_refs_same w.eng h.native_id (w.eng.refs h.native_id + 1) hl
  rw [hcc]
  refine ⟨rfl, rfl, ?_⟩
  rw [get_reference_count_table]
  exact ⟨hv, by rw [h1]; simp, by rw [h2, hr]⟩

/-- Closing one of two handles that share a live identifier with count `c + 1`,
`c` positive: the close succeeds and the other handle reads count `c`. -/
theorem close_shared_table (h : Handle) (w : World Table) (c : Nat) (hpos : 0 < c)
    (hc : h.get_reference_count tableEngine w = .ok (c + 1)) :
    (h.close tableEngine w).1 = .ok () ∧
    h.get_reference_count tableEngine (h.close tableEngine w).2.2 = .ok c := by
  obtain ⟨hv, hl, hr⟩ := (get_reference_count_table h w (c + 1)).mp hc
  obtain ⟨hw, hok, _⟩ := close_of_valid tableEngine h w hv
  have hrel := table_release_live w.eng h.native_id hl
  obtain ⟨h1, h2⟩ := live_set_refs_same w.eng h.native_id (w.eng.refs h.native_id - 1) hl
  refine ⟨hok (by rw [hrel]), ?_⟩
  rw [get_reference_count_table, hw, hrel]
  refine ⟨hv, ?_, ?_⟩
  · show (w.eng.set_refs h.native_id (w.eng.refs h.native_id - 1)).live h.native_id = true
    rw [h1, hr]; simpa using hpos
  · show (w.eng.set_refs h.native_id (w.eng.refs h.native_id - 1)).refs h.native_id = c
    rw [h2, hr]; rfl

/-- Releasing what a target owns does not touch the count of another
identifier. -/
theorem release_owned_other (target h : Handle) (w : World Table) (c : Nat)
    (hne : target.native_id ≠ h.native_id)
    (hc : h.get_reference_count tableEngine w = .ok c) :
    h.get_reference_count tableEngine (target.release_owned tableEngine w).2 = .ok c := by
  obtain ⟨hv, hl, hr⟩ := (get_reference_count_table h w c).mp hc
  rw [get_reference_count_table]
  cases ht : target.is_valid
  · simp [Handle.release_owned, ht, hv, hl, hr]
  · obtain ⟨h1, h2⟩ := release_other w.eng h.native_id target.native_id hne
    have hw := (close_of_valid tableEngine target w ht).1
    have he : (target.release_owned tableEngine w).2.eng
        = (tableEngine.release w.eng target.native_id).2 := by
      simp [Handle.release_owned, ht, hw]
    rw [he, h1, h2]
    exact ⟨hv, hl, hr⟩

/-- C7, as stated, fails for copy assignment onto a handle that already shares
the identifier.  Identifier 5 is live with count 2 and both `h` and the target
wrap it; `target = h` first releases the unit the target owned (count 1), then
takes a new one (count 2): the result equals `h`, but the count is still 2, not
2 + 1. -/
theorem C7_counterexample_assign_onto_sharing_handle :
    (⟨5⟩ : Handle).is_valid = true ∧
    (⟨5⟩ : Handle).get_reference_count tableEngine
        ⟨⟨fun id => if id = 5 then 2 else 0, fun _ => some .File⟩, []⟩ = .ok 2 ∧
    ((⟨5⟩ : Handle).copy_assign tableEngine ⟨5⟩
        ⟨⟨fun id => if id = 5 then 2 else 0, fun _ => some .File⟩, []⟩).2.1 = .ok ⟨5⟩ ∧
    (⟨5⟩ : Handle).get_reference_count tableEngine
        ((⟨5⟩ : Handle).copy_assign tableEngine ⟨5⟩
          ⟨⟨fun id => if id = 5 then 2 else 0, fun _ => some .File⟩, []⟩).2.2 = .ok 2 ∧
    (⟨5⟩ : Handle).get_reference_count tableEngine
        ((⟨5⟩ : Handle).copy_assign tableEngine ⟨5⟩
          ⟨⟨fun id => if id = 5 then 2 else 0, fun _ => some .File⟩, []⟩).2.2 ≠ .ok (2 + 1) := by
  have h4 : (⟨5⟩ : Handle).get_reference_count tableEngine
      ((⟨5⟩ : Handle).copy_assign tableEngine ⟨5⟩
        ⟨⟨fun id => if id = 5 then 2 else 0, fun _ => some .File⟩, []⟩).2.2 = .ok 2 := rfl
  refine ⟨rfl, rfl, rfl, h4, ?_⟩
  rw [h4]
  intro h
  cases h

/-- C7 (amended): on the reference-counting engine, let `h` be a valid handle
whose identifier has count `c`.  Copying `h` by copy construction, or by copy
assignment onto a target that does not already hold the identifier of `h`,
yields a handle `h2` equal to `h`, after which both read count `c + 1`.
Closing or destroying either of the two then succeeds and leaves the other
valid with count `c`. -/
theorem C7_copy_increments_close_decrements (w : World Table) (h target : Handle) (c : Nat)
    (hv : h.is_valid = true) (hc : h.get_reference_count tableEngine w = .ok c) :
    ∀ p : Except ErrorKind Handle × World Table,
      (p = h.copy_construct tableEngine w ∨
        (target.native_id ≠ h.native_id ∧ p = (target.copy_assign tableEngine h w).2)) →
      ∃ h2 : Handle, p.1 = .ok h2 ∧ h2.equal h = true ∧
        h.get_reference_count tableEngine p.2 = .ok (c + 1) ∧
        h2.get_reference_count tableEngine p.2 = .ok (c + 1) ∧
        ((h2.close tableEngine p.2).1 = .ok () ∧ h.is_valid = true ∧
          h.get_reference_count tableEngine (h2.close tableEngine p.2).2.2 = .ok c) ∧
        ((h.close tableEngine p.2).1 = .ok () ∧ h2.is_valid = true ∧
          h2.get_reference_count tableEngine (h.close tableEngine p.2).2.2 = .ok c) ∧
        h.get_reference_count tableEngine (h2.destroy tableEngine p.2) = .ok c ∧
        h2.get_reference_count tableEngine (h.destroy tableEngine p.2) = .ok c := by
  have hpos : 0 < c := by
    obtain ⟨_, hl, hr⟩ := (get_reference_count_table h w c).mp hc
    simp only [Table.live, Bool.and_eq_true, decide_eq_true_eq] at hl
    omega
  have key : ∀ w1 : World Table, h.get_reference_count tableEngine w1 = .ok c →
      ∃ h2 : Handle, (h.copy_construct tableEngine w1).1 = .ok h2 ∧ h2.equal h = true ∧
        h.get_reference_count tableEngine (h.copy_construct tableEngine w1).2 = .ok (c + 1) ∧
        h2.get_reference_count tableEngine (h.copy_construct tableEngine w1).2 = .ok (c + 1) ∧
        ((h2.close tableEngine (h.copy_construct tableEngine w1).2).1 = .ok () ∧
          h.is_valid = true ∧
          h.get_reference_count tableEngine
            (h2.close tableEngine (h.copy_construct tableEngine w1).2).2.2 = .ok c) ∧
        ((h.close tableEngine (h.copy_construct tableEngine w1).2).1 = .ok () ∧
          h2.is_valid = true ∧
          h2.get_reference_count tableEngine
            (h.close tableEngine (h.copy_construct tableEngine w1).2).2.2 = .ok c) ∧
        h.get_reference_count tableEngine
          (h2.destroy tableEngine (h.copy_construct tableEngine w1).2) = .ok c ∧
        h2.get_reference_count tableEngine
          (h.destroy tableEngine (h.copy_construct tableEngine w1).2) = .ok c := by
    intro w1 hc1
    obtain ⟨ha, _, hb⟩ := copy_construct_table h w1 c hc1
    obtain ⟨hd, he⟩ := close_shared_table h _ c hpos hb
    exact ⟨h, ha, by simp [Handle.equal], hb, hb, ⟨hd, hv, he⟩, ⟨hd, hv, he⟩, he, he⟩
  intro p hp
  rcases hp with hp | ⟨hne, hp⟩
  · rw [hp]; exact key w hc
  · rw [hp]; exact key _ (release_owned_other target h w c hne hc)

/-- C7 (amended) on a concrete table: identifier 5 is live with count 1 and
identifier 6 with count 1.  Copy-constructing the handle on 5 gives count 2,
and so does copy-assigning it onto a handle that held identifier 6; closing
one of the two handles on 5 afterwards leaves count 1. -/
theorem C7_witness_count_two_then_one :
    (⟨5⟩ : Handle).get_reference_count tableEngine
        ((⟨5⟩ : Handle).copy_construct tableEngine
          ⟨⟨fun id => if id = 5 ∨ id = 6 then 1 else 0, fun _ => some .File⟩, []⟩).2
      = .ok (1 + 1) ∧
    (⟨5⟩ : Handle).get_reference_count tableEngine
        ((⟨6⟩ : Handle).copy_assign tableEngine ⟨5⟩
          ⟨⟨fun id => if id = 5 ∨ id = 6 then 1 else 0, fun _ => some .File⟩, []⟩).2.2
      = .ok (1 + 1) ∧
    (⟨5⟩ : Handle).get_reference_count tableEngine
        ((⟨5⟩ : Handle).close tableEngine
          ((⟨6⟩ : Handle).copy_assign tableEngine ⟨5⟩
            ⟨⟨fun id => if id = 5 ∨ id = 6 then 1 else 0, fun _ => some .File⟩, []⟩).2.2).2.2
      = .ok 1 := by
  have hyp := C7_copy_increments_close_decrements
    ⟨⟨fun id => if id = 5 ∨ id = 6 then 1 else 0, fun _ => some .File⟩, []⟩ ⟨5⟩ ⟨6⟩ 1
    (by decide) rfl
  obtain ⟨_, _, _, hcons, _⟩ := hyp _ (Or.inl rfl)
  obtain ⟨h2, hres, _, hassign, _, _, ⟨_, _, hclosed⟩, _⟩ := hyp _ (Or.inr ⟨by decide, rfl⟩)
  have h25 : h2 = ⟨5⟩ := (Except.ok.inj hres).symm
  rw [h25] at hclosed
  exact ⟨hcons, hassign, hclosed⟩

/-- Releasing what a target owns does not change what the count query answers
for another identifier, whether that identifier is live or not. -/
theorem release_owned_count_other (target h : Handle) (w : World Table)
    (hne : target.native_id ≠ h.native_id) :
    h.get_reference_count tableEngine (target.release_owned tableEngine w).2
      = h.get_reference_count tableEngine w := by
  have hg : ∀ t : Table, tableEngine.get_ref t h.native_id
      = if t.live h.native_id = true then (t.refs h.native_id : Int) else -1 := fun _ => rfl
  cases ht : target.is_valid
  · simp [Handle.release_owned, ht]
  · obtain ⟨h1, h2⟩ := release_other w.eng h.native_id target.native_id hne
    have hw := (close_of_valid tableEngine target w ht).1
    have he : (target.release_owned tableEngine w).2.eng
        = (tableEngine.release w.eng target.native_id).2 := by
      simp [Handle.release_owned, ht, hw]
    unfold Handle.get_reference_count
    rw [hg, hg, he, h1, h2]

/-- C8, as stated, fails for move assignment onto a handle that already shares
the identifier.  Identifier 5 is live with count 2 and both `h` and the target
wrap it; `target = std::move(h)` first releases the unit the target owned, so
the target equals the original `h` and `h` is invalid, but the count has gone
from 2 to 1. -/
theorem C8_counterexample_move_onto_sharing_handle :
    (⟨5⟩ : Handle).is_valid = true ∧
    (⟨5⟩ : Handle).get_reference_count tableEngine
        ⟨⟨fun id => if id = 5 then 2 else 0, fun _ => some .File⟩, []⟩ = .ok 2 ∧
    ((⟨5⟩ : Handle).move_assign tableEngine ⟨5⟩
        ⟨⟨fun id => if id = 5 then 2 else 0, fun _ => some .File⟩, []⟩).2.1.equal ⟨5⟩
      = true ∧
    ((⟨5⟩ : Handle).move_assign tableEngine ⟨5⟩
        ⟨⟨fun id => if id = 5 then 2 else 0, fun _ => some .File⟩, []⟩).2.2.1.is_valid
      = false ∧
    (⟨5⟩ : Handle).get_reference_count tableEngine
        ((⟨5⟩ : Handle).move_assign tableEngine ⟨5⟩
          ⟨⟨fun id => if id = 5 then 2 else 0, fun _ => some .File⟩, []⟩).2.2.2 = .ok 1 ∧
    (⟨5⟩ : Handle).get_reference_count tableEngine
        ((⟨5⟩ : Handle).move_assign tableEngine ⟨5⟩
          ⟨⟨fun id => if id = 5 then 2 else 0, fun _ => some .File⟩, []⟩).2.2.2
      ≠ (⟨5⟩ : Handle).get_reference_count tableEngine
        ⟨⟨fun id => if id = 5 then 2 else 0, fun _ => some .File⟩, []⟩ := by
  have h1 : (⟨5⟩ : Handle).get_reference_count tableEngine
      ⟨⟨fun id => if id = 5 then 2 else 0, fun _ => some .File⟩, []⟩ = .ok 2 := rfl
  have h2 : (⟨5⟩ : Handle).get_reference_count tableEngine
      ((⟨5⟩ : Handle).move_assign tableEngine ⟨5⟩
        ⟨⟨fun id => if id = 5 then 2 else 0, fun _ => some .File⟩, []⟩).2.2.2 = .ok 1 := rfl
  refine ⟨rfl, h1, rfl, rfl, h2, ?_⟩
  rw [h1, h2]
  intro h
  cases h

/-- C8 (amended): let `h` be a valid handle.  Move construction yields a valid
handle equal to the original `h` and an invalid moved-from `h`, with no engine
in sight.  Move assignment onto any target yields the same two handles; onto an
invalid target it returns the world untouched, whatever the engine; and, on
the reference-counting engine, onto a target that does not already hold the
identifier of `h` it leaves the reference count of that identifier as it was
(the only call recorded is the release of what a valid target owned). -/
theorem C8_move_transfers_ownership (E : IdEngine σ) (w : World σ) (wt : World Table)
    (h target : Handle) (hv : h.is_valid = true) :
    ((Handle.move_construct h).1.equal h = true ∧
      (Handle.move_construct h).1.is_valid = true ∧
      (Handle.move_construct h).2.is_valid = false) ∧
    ((target.move_assign E h w).2.1.equal h = true ∧
      (target.move_assign E h w).2.1.is_valid = true ∧
      (target.move_assign E h w).2.2.1.is_valid = false) ∧
    (target.is_valid = false → (target.move_assign E h w).2.2.2 = w) ∧
    (target.native_id ≠ h.native_id →
      h.get_reference_count tableEngine (target.move_assign tableEngine h wt).2.2.2
        = h.get_reference_count tableEngine wt ∧
      (target.move_assign tableEngine h wt).2.1.get_reference_count tableEngine
          (target.move_assign tableEngine h wt).2.2.2
        = h.get_reference_count tableEngine wt ∧
      (target.move_assign tableEngine h wt).2.2.2.calls
        = wt.calls ++ (if target.is_valid then [.release target.native_id] else [])) := by
  refine ⟨⟨by simp [Handle.move_construct, Handle.equal], hv, default_construct_not_valid⟩,
    ⟨by simp [Handle.move_assign, Handle.move_construct, Handle.equal], hv,
      default_construct_not_valid⟩, fun ht => ?_, fun hne => ⟨?_, ?_, ?_⟩⟩
  · simp [Handle.move_assign, Handle.release_owned, ht]
  · exact release_owned_count_other target h wt hne
  · exact release_owned_count_other target h wt hne
  · cases ht : target.is_valid
    · simp [Handle.move_assign, Handle.release_owned, ht]
    · simp [Handle.move_assign, Handle.release_owned, ht,
        (close_of_valid tableEngine target wt ht).1]

/-- C8 (amended) on a concrete table: identifiers 5 and 6 are live with count 1.
Moving the handle on 5 onto a default-constructed handle changes nothing in the
world; moving it onto the handle that held 6 leaves the count of 5 at 1 and
records only the release of 6. -/
theorem C8_witness_count_stays_one :
    ((Handle.default_construct).move_assign tableEngine ⟨5⟩
        ⟨⟨fun id => if id = 5 ∨ id = 6 then 1 else 0, fun _ => some .File⟩, []⟩).2.2.2.calls
      = [] ∧
    (⟨5⟩ : Handle).get_reference_count tableEngine
        ((⟨6⟩ : Handle).move_assign tableEngine ⟨5⟩
          ⟨⟨fun id => if id = 5 ∨ id = 6 then 1 else 0, fun _ => some .File⟩, []⟩).2.2.2
      = .ok 1 ∧
    ((⟨6⟩ : Handle).move_assign tableEngine ⟨5⟩
        ⟨⟨fun id => if id = 5 ∨ id = 6 then 1 else 0, fun _ => some .File⟩, []⟩).2.2.2.calls
      = [.release 6] := by
  have fresh := C8_move_transfers_ownership tableEngine
    ⟨⟨fun id => if id = 5 ∨ id = 6 then 1 else 0, fun _ => some .File⟩, []⟩
    ⟨⟨fun id => if id = 5 ∨ id = 6 then 1 else 0, fun _ => some .File⟩, []⟩
    ⟨5⟩ Handle.default_construct (by decide)
  have other := C8_move_transfers_ownership tableEngine
    ⟨⟨fun id => if id = 5 ∨ id = 6 then 1 else 0, fun _ => some .File⟩, []⟩
    ⟨⟨fun id => if id = 5 ∨ id = 6 then 1 else 0, fun _ => some .File⟩, []⟩
    ⟨5⟩ ⟨6⟩ (by decide)
  refine ⟨?_, ?_, ?_⟩
  · rw [fresh.2.2.1 (by decide)]
  · rw [(other.2.2.2 (by decide)).1]; rfl
  · rw [(other.2.2.2 (by decide)).2.2]; rfl

end handle

/-! ## Theorems: link creation order -/

namespace property_list

/-- Masking bit 1 and shifting it down is shifting first and masking bit 0. -/
theorem and_two_shiftRight_one (v : Nat) : (v &&& 2) >>> 1 = (v >>> 1) &&& 1 := by
  apply Nat.eq_of_testBit_eq
  intro i
  have h2 : (2 : Nat) = 2 ^ 1 := rfl
  have h1 : (1 : Nat) = 2 ^ 0 := rfl
  rw [Nat.testBit_shiftRight, Nat.testBit_and, Nat.testBit_and, Nat.testBit_shiftRight]
  congr 1
  rw [h2, h1, Nat.testBit_two_pow, Nat.testBit_two_pow]
  simp
  omega

/-- C13: the claim fails on the code.  From the default-constructed value,
`enable_indexed()` followed by `disable_tracked()` gives a value with
`indexed()` true and `tracked()` false: `disable_tracked` clears `tracked_` and
leaves `indexed_` set.  Each of the other three operations ends in a value
where indexed implies tracked: `enable_indexed` sets `tracked_` together with
`indexed_`. -/
theorem C13_disable_tracked_leaves_indexed_set :
    ((LinkCreationOrder.default_construct).enable_indexed).disable_tracked.indexed = true ∧
    ((LinkCreationOrder.default_construct).enable_indexed).disable_tracked.tracked = false ∧
    (∀ o : LinkCreationOrder,
      (o.enable_tracked.indexed = true → o.enable_tracked.tracked = true) ∧
      (o.enable_indexed.indexed = true → o.enable_indexed.tracked = true) ∧
      (o.disable_indexed.indexed = true → o.disable_indexed.tracked = true)) := by
  refine ⟨by decide, by decide, fun o => ⟨fun _ => ?_, fun _ => ?_, fun h => ?_⟩⟩
  · simp [LinkCreationOrder.enable_tracked, LinkCreationOrder.tracked]
  · simp [LinkCreationOrder.enable_indexed, LinkCreationOrder.tracked]
  · simp [LinkCreationOrder.disable_indexed, LinkCreationOrder.indexed] at h

/-- C14: for every value `v`, `LinkCreationOrder(v).tracked()` is bit 0 of `v`
and `LinkCreationOrder(v).indexed()` is bit 1 of `v`; the higher bits play no
part, `LinkCreationOrder(v)` being the very value `LinkCreationOrder(v mod 4)`;
the default-constructed value is `LinkCreationOrder(0)`, with both flags
false. -/
theorem C14_flags_are_bits_zero_and_one (v : Nat) :
    (LinkCreationOrder.from_unsigned v).tracked = v.testBit 0 ∧
    (LinkCreationOrder.from_unsigned v).indexed = v.testBit 1 ∧
    LinkCreationOrder.from_unsigned v = LinkCreationOrder.from_unsigned (v % 4) ∧
    LinkCreationOrder.default_construct = LinkCreationOrder.from_unsigned 0 ∧
    LinkCreationOrder.default_construct.tracked = false ∧
    LinkCreationOrder.default_construct.indexed = false := by
  refine ⟨?_, ?_, ?_, by decide, by decide, by decide⟩
  · simp [LinkCreationOrder.from_unsigned, LinkCreationOrder.tracked, H5P_CRT_ORDER_TRACKED,
      Nat.testBit, Nat.and_comm]
  · simp only [LinkCreationOrder.from_unsigned, LinkCreationOrder.indexed,
      H5P_CRT_ORDER_INDEXED]
    rw [and_two_shiftRight_one]
    simp [Nat.testBit, Nat.and_comm]
  · have ht : v &&& 1 = (v % 4) &&& 1 := by
      rw [Nat.and_one_is_mod, Nat.and_one_is_mod]; omega
    have hi : (v &&& 2) >>> 1 = ((v % 4) &&& 2) >>> 1 := by
      rw [and_two_shiftRight_one, and_two_shiftRight_one, Nat.and_one_is_mod,
        Nat.and_one_is_mod, Nat.shiftRight_eq_div_pow, Nat.shiftRight_eq_div_pow]
      omega
    simp only [LinkCreationOrder.from_unsigned, H5P_CRT_ORDER_TRACKED, H5P_CRT_ORDER_INDEXED]
    rw [ht, hi]

end property_list

/-! ## Theorems: the same-name copy -/

namespace node

variable {σ : Type}

/-- C15: provided the `Path` built from the last element of the source's path
converts back to that very string, `copy(source, destination, ocpl, lcpl)` is
`copy(source, destination, Path(name), ocpl, lcpl)` with `name` the last
element of the source's path: the two return the same outcome (the same error
message included) and the same world, hence the same result of the existence
check and the same recorded call of `H5Ocopy` with the same arguments. -/
theorem C15_copy_same_name_is_copy_to_name (E : LinkEngine σ) (mkPath : String → Path)
    (source : Node) (destination : Group) (ocpl lcpl : hid_t) (w : World σ)
    (hname : (mkPath source.link.path.back).str = source.link.path.back) :
    copy_same_name E source destination ocpl lcpl w
      = copy E source destination (mkPath source.link.path.back) ocpl lcpl w ∧
    (E.links_exists w.hier destination.hid source.link.path.back
      = E.links_exists w.hier destination.hid (mkPath source.link.path.back).str) ∧
    (E.links_exists w.hier destination.hid source.link.path.back = false →
      (copy_same_name E source destination ocpl lcpl w).2.calls
        = w.calls ++ [.H5Ocopy source.link.parent.hid source.link.path.back destination.hid
            source.link.path.back ocpl lcpl] ∧
      (copy E source destination (mkPath source.link.path.back) ocpl lcpl w).2.calls
        = w.calls ++ [.H5Ocopy source.link.parent.hid source.link.path.back destination.hid
            source.link.path.back ocpl lcpl]) := by
  have heq : copy_same_name E source destination ocpl lcpl w
      = copy E source destination (mkPath source.link.path.back) ocpl lcpl w := by
    simp only [copy_same_name, copy, hname]
  refine ⟨heq, by rw [hname], fun h => ?_⟩
  have hc := (copy_same_name_of_not_exists E source destination ocpl lcpl w h).1
  refine ⟨by rw [hc], by rw [← heq, hc]⟩

/-- C15 at a concrete hierarchy, with `namePath` for `Path(std::string)`:
copying `/raw/data` of group 1 into group 2 under its own name records the call
`H5Ocopy(1, "data", 2, "data", 10, 11)` either way, and gives the same result. -/
theorem C15_witness_copy_data :
    copy_same_name listEngine ⟨⟨⟨1, "f.h5:/raw"⟩, ⟨"/raw/data", "data"⟩, "f.h5:/raw/data"⟩⟩
        ⟨2, "f.h5:/entry"⟩ 10 11 ⟨[(1, "data")], []⟩
      = copy listEngine ⟨⟨⟨1, "f.h5:/raw"⟩, ⟨"/raw/data", "data"⟩, "f.h5:/raw/data"⟩⟩
        ⟨2, "f.h5:/entry"⟩ (namePath "data") 10 11 ⟨[(1, "data")], []⟩ ∧
    (copy listEngine ⟨⟨⟨1, "f.h5:/raw"⟩, ⟨"/raw/data", "data"⟩, "f.h5:/raw/data"⟩⟩
        ⟨2, "f.h5:/entry"⟩ (namePath "data") 10 11 ⟨[(1, "data")], []⟩).2.calls
      = [.H5Ocopy 1 "data" 2 "data" 10 11] :=
  have h := C15_copy_same_name_is_copy_to_name listEngine namePath
    ⟨⟨⟨1, "f.h5:/raw"⟩, ⟨"/raw/data", "data"⟩, "f.h5:/raw/data"⟩⟩
    ⟨2, "f.h5:/entry"⟩ 10 11 ⟨[(1, "data")], []⟩ rfl
  ⟨h.1, (h.2.2 (by decide)).2⟩

end node

/-! ## Theorems: the class compatibility check -/

namespace handle

variable {σ : Type}

/-- C11: adopting a handle into a wrapper that expects `expected_class`
succeeds iff the handle is of kind `PropertyList` and the engine reports
`expected_class` as its class tag; the handle then moves into the wrapper.  A
configuration list with any other tag is rejected with `ClassMismatch` (so a
group-creation list handed to the file-access wrapper is), and a handle that
is not a configuration list is rejected with `InvalidHandle`; a rejected handle
stays with the caller as it was. -/
theorem C11_adopt_checks_kind_and_class (E : ClassEngine σ) (h : Handle)
    (expected_class : ClassTag) (w : World σ) :
    ((∃ l : ConfigList, (adopt E h expected_class w).1 = .ok l) ↔
      (h.kind E.toIdEngine w = .PropertyList ∧
        E.get_class w.eng h.native_id = some expected_class)) ∧
    (h.kind E.toIdEngine w = .PropertyList →
      E.get_class w.eng h.native_id = some expected_class →
      adopt E h expected_class w
        = (.ok ⟨⟨h.native_id⟩, expected_class⟩, Handle.default_construct)) ∧
    (h.kind E.toIdEngine w = .PropertyList →
      E.get_class w.eng h.native_id ≠ some expected_class →
      adopt E h expected_class w = (.error .ClassMismatch, h)) ∧
    (h.kind E.toIdEngine w ≠ .PropertyList →
      adopt E h expected_class w = (.error .InvalidHandle, h)) ∧
    (h.kind E.toIdEngine w = .PropertyList →
      E.get_class w.eng h.native_id = some kGroupCreate →
      adopt E h kFileAccess w = (.error .ClassMismatch, h)) := by
  refine ⟨?_, fun hk hc => ?_, fun hk hc => ?_, fun hk => ?_, fun hk hc => ?_⟩
  · by_cases hk : h.kind E.toIdEngine w = .PropertyList
    · by_cases hc : E.get_class w.eng h.native_id = some expected_class
      · simp [adopt, hk, hc]
      · simp [adopt, hk, hc]
    · simp [adopt, hk]
  · simp [adopt, hk, hc, Handle.move_construct]
  · simp [adopt, hk, hc]
  · simp [adopt, hk]
  · have hne : E.get_class w.eng h.native_id ≠ some kFileAccess := by
      rw [hc]; decide
    simp [adopt, hk, hne]

/-- C11 on the reference-counting engine: identifier 3 is a group-creation
list and identifier 4 a file.  The handle on 3 is adopted by the group-creation
wrapper and rejected with `ClassMismatch` by the file-access wrapper; the
handle on 4 is rejected with `InvalidHandle`. -/
theorem C11_witness_group_creation_list :
    adopt classEngine ⟨3⟩ kGroupCreate exampleLists
      = (.ok ⟨⟨3⟩, kGroupCreate⟩, Handle.default_construct) ∧
    adopt classEngine ⟨3⟩ kFileAccess exampleLists = (.error .ClassMismatch, ⟨3⟩) ∧
    adopt classEngine ⟨4⟩ kFileAccess exampleLists = (.error .InvalidHandle, ⟨4⟩) :=
  ⟨(C11_adopt_checks_kind_and_class classEngine ⟨3⟩ kGroupCreate exampleLists).2.1
      (by decide) (by decide),
    (C11_adopt_checks_kind_and_class classEngine ⟨3⟩ kFileAccess exampleLists).2.2.2.2
      (by decide) (by decide),
    (C11_adopt_checks_kind_and_class classEngine ⟨4⟩ kFileAccess exampleLists).2.2.2.1
      (by decide)⟩

end handle

/-! ## Theorems: accessors of the group-creation list on a refused identifier -/

namespace property_list

variable {σ τ : Type}

/-- The four accessors that read the estimated link info throw the message of
the getter when the engine's `H5Pget_est_link_info` fails; the two setters
among them throw before storing anything. -/
theorem est_link_info_get_fails (G : GroupCreationEngine σ) (gcpl : GroupCreation) (s : σ)
    (v : Nat) (h : (G.H5Pget_est_link_info s gcpl.hid).1 < 0) :
    gcpl.estimated_number_of_links G s = .error
      ⟨"Failure to retrieve the estimated number of links from a group creation property list!"⟩ ∧
    gcpl.estimated_link_name_length G s = .error
      ⟨"Failure to retrieve the estimated number of links from a group creation property list!"⟩ ∧
    gcpl.set_estimated_number_of_links G v s = (.error
      ⟨"Failure to retrieve the estimated number of links from a group creation property list!"⟩,
      s) ∧
    gcpl.set_estimated_link_name_length G v s = (.error
      ⟨"Failure to retrieve the estimated number of links from a group creation property list!"⟩,
      s) := by
  simp [GroupCreation.estimated_number_of_links, GroupCreation.estimated_link_name_length,
    GroupCreation.set_estimated_number_of_links, GroupCreation.set_estimated_link_name_length,
    GroupCreation.get_estimated_link_info_, h]

/-- The four accessors that read the link phase change throw the message of
the getter they call when the engine's `H5Pget_link_phase_change` fails; the
two setters among them throw before storing anything. -/
theorem link_phase_change_get_fails (G : GroupCreationEngine σ) (gcpl : GroupCreation) (s : σ)
    (v : Nat) (h : (G.H5Pget_link_phase_change s gcpl.hid).1 < 0) :
    gcpl.maximum_links_for_compact_group G.toPhaseChangeEngine s = .error
      ⟨"Failure retrieving the maximum number of links for compact groups from group creation property list!"⟩ ∧
    gcpl.minimum_links_for_dense_group G.toPhaseChangeEngine s = .error
      ⟨"Failure retrieving the minimum number of links for dense groups from group creation property list!"⟩ ∧
    gcpl.set_maximum_links_for_compact_group G.toPhaseChangeEngine v s = (.error
      ⟨"Failure retrieving the minimum number of links for dense groups from group creation property list!"⟩,
      s) ∧
    gcpl.set_minimum_links_for_dense_group G.toPhaseChangeEngine v s = (.error
      ⟨"Failure retrieving the maximum number of links for compact groups from group creation property list!"⟩,
      s) := by
  simp [GroupCreation.maximum_links_for_compact_group,
    GroupCreation.minimum_links_for_dense_group,
    GroupCreation.set_maximum_links_for_compact_group,
    GroupCreation.set_minimum_links_for_dense_group, GroupCreation.get_link_phase_change_, h]

/-- The two setters of the estimated link info throw their own message when the
getter they call succeeded and the engine's `H5Pset_est_link_info` fails. -/
theorem est_link_info_set_fails (G : GroupCreationEngine σ) (gcpl : GroupCreation) (s : σ)
    (v : Nat) (hget : 0 ≤ (G.H5Pget_est_link_info s gcpl.hid).1) :
    ((G.H5Pset_est_link_info s gcpl.hid v (G.H5Pget_est_link_info s gcpl.hid).2.2).1 < 0 →
      gcpl.set_estimated_number_of_links G v s = (.error
        ⟨"Failure to set the estimated number of links  for group creation property list!"⟩,
        (G.H5Pset_est_link_info s gcpl.hid v (G.H5Pget_est_link_info s gcpl.hid).2.2).2)) ∧
    ((G.H5Pset_est_link_info s gcpl.hid (G.H5Pget_est_link_info s gcpl.hid).2.1 v).1 < 0 →
      gcpl.set_estimated_link_name_length G v s = (.error
        ⟨"Failure setting the estimated linke name length for group creation property list!"⟩,
        (G.H5Pset_est_link_info s gcpl.hid (G.H5Pget_est_link_info s gcpl.hid).2.1 v).2)) := by
  have hn : ¬ (G.H5Pget_est_link_info s gcpl.hid).1 < 0 := not_lt.mpr hget
  constructor <;> intro h <;>
    simp [GroupCreation.estimated_number_of_links, GroupCreation.estimated_link_name_length,
      GroupCreation.set_estimated_number_of_links, GroupCreation.set_estimated_link_name_length,
      GroupCreation.get_estimated_link_info_, GroupCreation.set_estimated_link_info_, hn, h]

/-- The two setters of the link phase change throw their own message when the
getter they call succeeded and the engine's `H5Pset_link_phase_change` fails. -/
theorem link_phase_change_set_fails (G : GroupCreationEngine σ) (gcpl : GroupCreation) (s : σ)
    (v : Nat) (hget : 0 ≤ (G.H5Pget_link_phase_change s gcpl.hid).1) :
    ((G.H5Pset_link_phase_change s gcpl.hid v (G.H5Pget_link_phase_change s gcpl.hid).2.2).1 < 0 →
      gcpl.set_maximum_links_for_compact_group G.toPhaseChangeEngine v s = (.error
        ⟨"Failure to set the number of maximum links for compact groups in a group creation property list!"⟩,
        (G.H5Pset_link_phase_change s gcpl.hid v
          (G.H5Pget_link_phase_change s gcpl.hid).2.2).2)) ∧
    ((G.H5Pset_link_phase_change s gcpl.hid (G.H5Pget_link_phase_change s gcpl.hid).2.1 v).1 < 0 →
      gcpl.set_minimum_links_for_dense_group G.toPhaseChangeEngine v s = (.error
        ⟨"Failure to set the minimum number of links for dense groups in a group creation property list!"⟩,
        (G.H5Pset_link_phase_change s gcpl.hid
          (G.H5Pget_link_phase_change s gcpl.hid).2.1 v).2)) := by
  have hn : ¬ (G.H5Pget_link_phase_change s gcpl.hid).1 < 0 := not_lt.mpr hget
  constructor <;> intro h <;>
    simp [GroupCreation.maximum_links_for_compact_group,
      GroupCreation.minimum_links_for_dense_group,
      GroupCreation.set_maximum_links_for_compact_group,
      GroupCreation.set_minimum_links_for_dense_group, GroupCreation.get_link_phase_change_,
      GroupCreation.set_link_phase_change_, hn, h]

/-- The instantiating engine refuses every negative identifier. -/
theorem settingsEngine_rejects (s : Settings) (id : hid_t) (h : id < 0) :
    settingsEngine.Rejects s id := by
  simp [GroupCreationEngine.Rejects, settingsEngine, h]

/-- C12: every public getter and setter of the group-creation list throws
whenever an engine call it makes returns a negative status: a getter returns
no value, a setter reports no success (a setter whose inner getter fails throws
that getter's message before storing anything).  Hence, once the underlying
handle has been closed, the wrapper's identifier is the sentinel, and with an
engine that refuses the sentinel none of the twelve accessors succeeds. -/
theorem C12_accessors_throw_on_negative_status (G : GroupCreationEngine σ)
    (to_unsigned : LinkCreationOrder → Nat) (gcpl : GroupCreation) (s : σ) (v : Nat)
    (order : LinkCreationOrder) :
    ((G.H5Pget_local_heap_size_hint s gcpl.hid).1 < 0 →
      gcpl.local_heap_size_hint G s = .error
        ⟨"Failure reading local heap size hint from group creation property list!"⟩) ∧
    ((G.H5Pset_local_heap_size_hint s gcpl.hid v).1 < 0 →
      gcpl.set_local_heap_size_hint G v s = (.error
        ⟨"Failure setting local heap size hint in group creation property list!"⟩,
        (G.H5Pset_local_heap_size_hint s gcpl.hid v).2)) ∧
    ((G.H5Pget_link_creation_order s gcpl.hid).1 < 0 →
      gcpl.link_creation_order G s = .error
        ⟨"Failure to retrieve link creation order from group creation property list!"⟩) ∧
    ((G.H5Pset_link_creation_order s gcpl.hid (to_unsigned order)).1 < 0 →
      gcpl.set_link_creation_order G to_unsigned order s = (.error
        ⟨"Failure to set link creation order for group creation property list!"⟩,
        (G.H5Pset_link_creation_order s gcpl.hid (to_unsigned order)).2)) ∧
    ((G.H5Pget_est_link_info s gcpl.hid).1 < 0 →
      gcpl.estimated_number_of_links G s = .error
        ⟨"Failure to retrieve the estimated number of links from a group creation property list!"⟩ ∧
      gcpl.estimated_link_name_length G s = .error
        ⟨"Failure to retrieve the estimated number of links from a group creation property list!"⟩ ∧
      gcpl.set_estimated_number_of_links G v s = (.error
        ⟨"Failure to retrieve the estimated number of links from a group creation property list!"⟩,
        s) ∧
      gcpl.set_estimated_link_name_length G v s = (.error
        ⟨"Failure to retrieve the estimated number of links from a group creation property list!"⟩,
        s)) ∧
    (0 ≤ (G.H5Pget_est_link_info s gcpl.hid).1 →
      ((G.H5Pset_est_link_info s gcpl.hid v (G.H5Pget_est_link_info s gcpl.hid).2.2).1 < 0 →
        gcpl.set_estimated_number_of_links G v s = (.error
          ⟨"Failure to set the estimated number of links  for group creation property list!"⟩,
          (G.H5Pset_est_link_info s gcpl.hid v (G.H5Pget_est_link_info s gcpl.hid).2.2).2)) ∧
      ((G.H5Pset_est_link_info s gcpl.hid (G.H5Pget_est_link_info s gcpl.hid).2.1 v).1 < 0 →
        gcpl.set_estimated_link_name_length G v s = (.error
          ⟨"Failure setting the estimated linke name length for group creation property list!"⟩,
          (G.H5Pset_est_link_info s gcpl.hid (G.H5Pget_est_link_info s gcpl.hid).2.1 v).2))) ∧
    ((G.H5Pget_link_phase_change s gcpl.hid).1 < 0 →
      gcpl.maximum_links_for_compact_group G.toPhaseChangeEngine s = .error
        ⟨"Failure retrieving the maximum number of links for compact groups from group creation property list!"⟩ ∧
      gcpl.minimum_links_for_dense_group G.toPhaseChangeEngine s = .error
        ⟨"Failure retrieving the minimum number of links for dense groups from group creation property list!"⟩ ∧
      gcpl.set_maximum_links_for_compact_group G.toPhaseChangeEngine v s = (.error
        ⟨"Failure retrieving the minimum number of links for dense groups from group creation property list!"⟩,
        s) ∧
      gcpl.set_minimum_links_for_dense_group G.toPhaseChangeEngine v s = (.error
        ⟨"Failure retrieving the maximum number of links for compact groups from group creation property list!"⟩,
        s)) ∧
    (0 ≤ (G.H5Pget_link_phase_change s gcpl.hid).1 →
      ((G.H5Pset_link_phase_change s gcpl.hid v
          (G.H5Pget_link_phase_change s gcpl.hid).2.2).1 < 0 →
        gcpl.set_maximum_links_for_compact_group G.toPhaseChangeEngine v s = (.error
          ⟨"Failure to set the number of maximum links for compact groups in a group creation property list!"⟩,
          (G.H5Pset_link_phase_change s gcpl.hid v
            (G.H5Pget_link_phase_change s gcpl.hid).2.2).2)) ∧
      ((G.H5Pset_link_phase_change s gcpl.hid
          (G.H5Pget_link_phase_change s gcpl.hid).2.1 v).1 < 0 →
        gcpl.set_minimum_links_for_dense_group G.toPhaseChangeEngine v s = (.error
          ⟨"Failure to set the minimum number of links for dense groups in a group creation property list!"⟩,
          (G.H5Pset_link_phase_change s gcpl.hid
            (G.H5Pget_link_phase_change s gcpl.hid).2.1 v).2))) ∧
    (∀ (E : handle.IdEngine τ) (w : handle.World τ) (h : handle.Handle),
      h.is_valid = true → gcpl.hid = (h.close E w).2.1.native_id →
      G.Rejects s handle.sentinel →
      [(gcpl.local_heap_size_hint G s).isOk,
        (gcpl.set_local_heap_size_hint G v s).1.isOk,
        (gcpl.estimated_number_of_links G s).isOk,
        (gcpl.set_estimated_number_of_links G v s).1.isOk,
        (gcpl.estimated_link_name_length G s).isOk,
        (gcpl.set_estimated_link_name_length G v s).1.isOk,
        (gcpl.link_creation_order G s).isOk,
        (gcpl.set_link_creation_order G to_unsigned order s).1.isOk,
        (gcpl.maximum_links_for_compact_group G.toPhaseChangeEngine s).isOk,
        (gcpl.set_maximum_links_for_compact_group G.toPhaseChangeEngine v s).1.isOk,
        (gcpl.minimum_links_for_dense_group G.toPhaseChangeEngine s).isOk,
        (gcpl.set_minimum_links_for_dense_group G.toPhaseChangeEngine v s).1.isOk]
        = List.replicate 12 false) := by
  have h1 : (G.H5Pget_local_heap_size_hint s gcpl.hid).1 < 0 →
      gcpl.local_heap_size_hint G s = .error
        ⟨"Failure reading local heap size hint from group creation property list!"⟩ := by
    intro h; simp [GroupCreation.local_heap_size_hint, h]
  have h2 : (G.H5Pset_local_heap_size_hint s gcpl.hid v).1 < 0 →
      gcpl.set_local_heap_size_hint G v s = (.error
        ⟨"Failure setting local heap size hint in group creation property list!"⟩,
        (G.H5Pset_local_heap_size_hint s gcpl.hid v).2) := by
    intro h; simp [GroupCreation.set_local_heap_size_hint, h]
  have h3 : (G.H5Pget_link_creation_order s gcpl.hid).1 < 0 →
      gcpl.link_creation_order G s = .error
        ⟨"Failure to retrieve link creation order from group creation property list!"⟩ := by
    intro h; simp [GroupCreation.link_creation_order, h]
  have h4 : (G.H5Pset_link_creation_order s gcpl.hid (to_unsigned order)).1 < 0 →
      gcpl.set_link_creation_order G to_unsigned order s = (.error
        ⟨"Failure to set link creation order for group creation property list!"⟩,
        (G.H5Pset_link_creation_order s gcpl.hid (to_unsigned order)).2) := by
    intro h; simp [GroupCreation.set_link_creation_order, h]
  refine ⟨h1, h2, h3, h4, est_link_info_get_fails G gcpl s v, est_link_info_set_fails G gcpl s v,
    link_phase_change_get_fails G gcpl s v, link_phase_change_set_fails G gcpl s v, ?_⟩
  intro E w h hv hid hrej
  have hs : gcpl.hid = handle.sentinel := by
    rw [hid, (handle.close_of_valid E h w hv).1]; rfl
  rw [← hs] at hrej
  obtain ⟨r1, r2, r3, _, r5, r6, r7, _⟩ := hrej
  obtain ⟨e1, e2, e3, e4⟩ := est_link_info_get_fails G gcpl s v r3
  obtain ⟨p1, p2, p3, p4⟩ := link_phase_change_get_fails G gcpl s v r7
  rw [h1 r1, h2 (r2 v), h3 r5, h4 (r6 _), e1, e2, e3, e4, p1, p2, p3, p4]
  rfl

/-- C12 on a concrete list: the handle on identifier 5 has been closed, so the
wrapper's identifier is -1, which the engine refuses.  Reading the heap size
hint throws, setting the maximum number of links throws the message of the
getter it calls and stores nothing, and none of the twelve accessors
succeeds. -/
theorem C12_witness_closed_list :
    (⟨-1⟩ : GroupCreation).local_heap_size_hint settingsEngine ⟨0, 4, 8, 0, 8, 6⟩
      = .error ⟨"Failure reading local heap size hint from group creation property list!"⟩ ∧
    (⟨-1⟩ : GroupCreation).set_maximum_links_for_compact_group
        settingsEngine.toPhaseChangeEngine 10 ⟨0, 4, 8, 0, 8, 6⟩
      = (.error
          ⟨"Failure retrieving the minimum number of links for dense groups from group creation property list!"⟩,
          ⟨0, 4, 8, 0, 8, 6⟩) ∧
    [((⟨-1⟩ : GroupCreation).local_heap_size_hint settingsEngine ⟨0, 4, 8, 0, 8, 6⟩).isOk,
      ((⟨-1⟩ : GroupCreation).set_local_heap_size_hint settingsEngine 10
        ⟨0, 4, 8, 0, 8, 6⟩).1.isOk,
      ((⟨-1⟩ : GroupCreation).estimated_number_of_links settingsEngine
        ⟨0, 4, 8, 0, 8, 6⟩).isOk,
      ((⟨-1⟩ : GroupCreation).set_estimated_number_of_links settingsEngine 10
        ⟨0, 4, 8, 0, 8, 6⟩).1.isOk,
      ((⟨-1⟩ : GroupCreation).estimated_link_name_length settingsEngine
        ⟨0, 4, 8, 0, 8, 6⟩).isOk,
      ((⟨-1⟩ : GroupCreation).set_estimated_link_name_length settingsEngine 10
        ⟨0, 4, 8, 0, 8, 6⟩).1.isOk,
      ((⟨-1⟩ : GroupCreation).link_creation_order settingsEngine ⟨0, 4, 8, 0, 8, 6⟩).isOk,
      ((⟨-1⟩ : GroupCreation).set_link_creation_order settingsEngine
        (fun o => o.tracked_ ||| (o.indexed_ <<< 1)) LinkCreationOrder.default_construct
        ⟨0, 4, 8, 0, 8, 6⟩).1.isOk,
      ((⟨-1⟩ : GroupCreation).maximum_links_for_compact_group
        settingsEngine.toPhaseChangeEngine ⟨0, 4, 8, 0, 8, 6⟩).isOk,
      ((⟨-1⟩ : GroupCreation).set_maximum_links_for_compact_group
        settingsEngine.toPhaseChangeEngine 10 ⟨0, 4, 8, 0, 8, 6⟩).1.isOk,
      ((⟨-1⟩ : GroupCreation).minimum_links_for_dense_group
        settingsEngine.toPhaseChangeEngine ⟨0, 4, 8, 0, 8, 6⟩).isOk,
      ((⟨-1⟩ : GroupCreation).set_minimum_links_for_dense_group
        settingsEngine.toPhaseChangeEngine 10 ⟨0, 4, 8, 0, 8, 6⟩).1.isOk]
      = List.replicate 12 false :=
  have h := C12_accessors_throw_on_negative_status settingsEngine
    (fun o => o.tracked_ ||| (o.indexed_ <<< 1)) ⟨-1⟩ ⟨0, 4, 8, 0, 8, 6⟩ 10
    LinkCreationOrder.default_construct
  ⟨h.1 (by decide), (h.2.2.2.2.2.2.1 (by decide)).2.2.1,
    h.2.2.2.2.2.2.2.2 handle.tableEngine
      ⟨⟨fun id => if id = 5 then 1 else 0, fun _ => some .PropertyList⟩, []⟩ ⟨5⟩
      (by decide) rfl (settingsEngine_rejects _ _ (by decide))⟩

end property_list

end hdf5
